import Mathlib

/-!
Verification development for the NYOS-APR synthetic pharmaceutical data
generator (backend/app/services/data_generation_service.py).

The Python module is shallowly embedded below.  Conventions of the embedding:

* Python floats are modelled as exact rationals (ℚ).  Pythons round(x, n)
  (round-half-even) is modelled exactly on ℚ by pyRound; int() truncation by
  pyTrunc.
* datetime.date values are modelled by a Date record (year, month, day);
  datetime subtraction (delta.days) is modelled by the proleptic Gregorian
  day number rataDie; adding a timedelta of days by addDays.  Timestamps that
  the code renders into strings are carried as their components.
* All pseudo-random draws are modelled as seed-determined streams: after
  np.random.seed(seed) / random.seed(seed) / Faker.seed(seed) the i-th draw
  of each source is a fixed function of (seed, i).  An Entropy record holds
  the three streams that a fixed seed determines; a Counters record holds the
  positions of the three sources; _reset_seed() resets all positions to 0.
  Distribution shape is location/scale only: normal(mu, sd) is mu + sd * z
  where z is the next raw numpy value, exponential(s) is s * z; the discrete
  helpers (randint / choice / choices) select from the same support as the
  source using the next raw value of pythons random module.  Faker text is a
  stream-determined string.  No claim below depends on distribution shape,
  only on support, post-processing and structure.
* numpy std needs a square root; ℚ is not closed under sqrt, so the embedded
  npStd uses Mathlibs rational square-root approximation Rat.sqrt.  No claim
  depends on the value of the content-uniformity statistic, only on the
  comparison of the stored field against its limit.
-/

namespace NYOS

/-! ## Numeric utilities (Python float helpers on ℚ) -/

/-- Python round(x, nd): round to nd decimal digits, ties to even
(bankers rounding, as Python and numpy round). -/
def pyRound (x : ℚ) (nd : ℕ) : ℚ :=
  let m : ℚ := (10 : ℚ) ^ nd
  let y := x * m
  let f : ℤ := ⌊y⌋
  let r := y - (f : ℚ)
  let z : ℤ :=
    if r < 1/2 then f
    else if 1/2 < r then f + 1
    else if f % 2 = 0 then f else f + 1
  (z : ℚ) / m

/-- Python int(x): truncation toward zero. -/
def pyTrunc (x : ℚ) : ℤ :=
  if 0 ≤ x then ⌊x⌋ else ⌈x⌉

/-- Python min over a nonempty list (0 for the empty list, never used so). -/
def listMin : List ℚ → ℚ
  | [] => 0
  | h :: t => t.foldl min h

/-- numpy mean of a list. -/
def npMean (l : List ℚ) : ℚ := l.sum / (l.length : ℚ)

/-- numpy population variance of a list. -/
def npVariance (l : List ℚ) : ℚ :=
  (l.map (fun x => (x - npMean l) ^ 2)).sum / (l.length : ℚ)

/-- numpy population standard deviation.  The real value is the (generally
irrational) square root of the variance; the embedding uses the rational
square-root approximation.  No claim depends on this value. -/
def npStd (l : List ℚ) : ℚ := Rat.sqrt (npVariance l)

/-! ## Decimal rendering (Python format specifiers like 05d) -/

/-- Decimal digit characters of a natural number, most significant first
(empty for 0, which only ever occurs under zero padding below). -/
def decChars (n : ℕ) : List Char :=
  ((Nat.digits 10 n).reverse).map (fun d => Char.ofNat (48 + d))

/-- Zero-padded decimal digit characters: Python format w 0-pad of n. -/
def padChars (w n : ℕ) : List Char :=
  List.replicate (w - (decChars n).length) '0' ++ decChars n

/-- Python f-string piece n:0wd as a string. -/
def padNum (w n : ℕ) : String := String.mk (padChars w n)

/-! ## Dates -/

/-- A calendar date as the Python datetime values carry it. -/
structure Date where
  year : ℕ
  month : ℕ
  day : ℕ
deriving DecidableEq, Repr, Inhabited

def isLeapYear (y : ℕ) : Bool :=
  (y % 4 = 0 && y % 100 ≠ 0) || y % 400 = 0

def daysInMonth (y m : ℕ) : ℕ :=
  match m with
  | 1 => 31
  | 2 => if isLeapYear y then 29 else 28
  | 3 => 31
  | 4 => 30
  | 5 => 31
  | 6 => 30
  | 7 => 31
  | 8 => 31
  | 9 => 30
  | 10 => 31
  | 11 => 30
  | 12 => 31
  | _ => 30

/-- Days in the months of year y strictly before month m (non-leap basis
plus the leap-day correction). -/
def monthOffset (y m : ℕ) : ℕ :=
  (match m with
   | 1 => 0
   | 2 => 31
   | 3 => 59
   | 4 => 90
   | 5 => 120
   | 6 => 151
   | 7 => 181
   | 8 => 212
   | 9 => 243
   | 10 => 273
   | 11 => 304
   | 12 => 334
   | _ => 334) + (if 2 < m ∧ isLeapYear y then 1 else 0)

/-- Proleptic Gregorian day number; differences of rataDie values model
(d2 - d1).days of Python datetime. -/
def rataDie (d : Date) : ℕ :=
  365 * (d.year - 1) + ((d.year - 1) / 4 + (d.year - 1) / 400 - (d.year - 1) / 100)
    + monthOffset d.year d.month + d.day

def nextDay (d : Date) : Date :=
  if d.day < daysInMonth d.year d.month then ⟨d.year, d.month, d.day + 1⟩
  else if d.month < 12 then ⟨d.year, d.month + 1, 1⟩
  else ⟨d.year + 1, 1, 1⟩

def prevDay (d : Date) : Date :=
  if 1 < d.day then ⟨d.year, d.month, d.day - 1⟩
  else if 1 < d.month then ⟨d.year, d.month - 1, daysInMonth d.year (d.month - 1)⟩
  else ⟨d.year - 1, 12, 31⟩

/-- date + timedelta(days = n), n ≥ 0. -/
def addDays (d : Date) : ℕ → Date
  | 0 => d
  | n + 1 => addDays (nextDay d) n

/-- date - timedelta(days = n), n ≥ 0. -/
def subDays (d : Date) : ℕ → Date
  | 0 => d
  | n + 1 => subDays (prevDay d) n

/-- date + timedelta(days = k) for a possibly negative k. -/
def addDaysInt (d : Date) (k : ℤ) : Date :=
  if 0 ≤ k then addDays d k.toNat else subDays d (-k).toNat

/-- Number of iterations of a while current <= end loop that steps one day at
a time: the days from s to e inclusive (0 when e is before s). -/
def numDaysInclusive (s e : Date) : ℕ :=
  ((rataDie e : ℤ) + 1 - (rataDie s : ℤ)).toNat

/-- The consecutive days visited by the daily generation loops. -/
def dateRange (s : Date) : ℕ → List Date
  | 0 => []
  | n + 1 => s :: dateRange (nextDay s) n

/-- Days visited by a while loop stepping a fixed stride of days. -/
def strideDates (s : Date) (stride : ℕ) : ℕ → List Date
  | 0 => []
  | n + 1 => s :: strideDates (addDays s stride) stride n

/-- Iterations of a while loop stepping stride days from s up to e. -/
def strideCount (s e : Date) (stride : ℕ) : ℕ :=
  if rataDie s ≤ rataDie e then (rataDie e - rataDie s) / stride + 1 else 0

/-- First day of the month after the given first-of-month date. -/
def nextMonthFirst (d : Date) : Date :=
  if d.month = 12 then ⟨d.year + 1, 1, 1⟩ else ⟨d.year, d.month + 1, 1⟩

/-- First-of-month dates visited by the CAPA month loop. -/
def monthFirsts (s : Date) : ℕ → List Date
  | 0 => []
  | n + 1 => s :: monthFirsts (nextMonthFirst s) n

/-- Iterations of the month loop from start.replace(day=1) while <= end. -/
def monthCount (s e : Date) : ℕ :=
  ((12 * e.year + e.month : ℤ) - (12 * s.year + s.month) + 1).toNat

/-! ## Random sources

The generator draws from three process-wide sources: numpy (np.random),
Pythons random module, and Faker.  self._reset_seed() reseeds all three
from self.seed; with the seed fixed, each source is a deterministic stream
and a generators draws are read at successive positions. -/

/-- The three seed-determined raw streams (what a fixed seed pins down). -/
structure Entropy where
  np : ℕ → ℚ
  py : ℕ → ℕ
  fk : ℕ → ℕ

/-- Current read positions of the three sources (the mutable RNG state). -/
structure Counters where
  np : ℕ
  py : ℕ
  fk : ℕ
deriving DecidableEq, Repr, Inhabited

/-- self._reset_seed(): np.random.seed(seed); random.seed(seed);
Faker.seed(seed) - every stream position returns to 0. -/
def Counters.zero : Counters := ⟨0, 0, 0⟩

/-- Advance the numpy stream position by one. -/
def Counters.bumpNp (c : Counters) : Counters := ⟨c.np + 1, c.py, c.fk⟩

/-- Advance the python-random stream position by one. -/
def Counters.bumpPy (c : Counters) : Counters := ⟨c.np, c.py + 1, c.fk⟩

/-- Advance the faker stream position by one. -/
def Counters.bumpFk (c : Counters) : Counters := ⟨c.np, c.py, c.fk + 1⟩

/-- np.random.normal(mu, sd): location-scale of the next raw numpy value. -/
def npNormal (ent : Entropy) (c : Counters) (mu sd : ℚ) : ℚ × Counters :=
  (mu + sd * ent.np c.np, c.bumpNp)

/-- np.random.exponential(scale): scale times the next raw numpy value. -/
def npExponential (ent : Entropy) (c : Counters) (scale : ℚ) : ℚ × Counters :=
  (scale * ent.np c.np, c.bumpNp)

/-- random.randint(a, b): inclusive bounds. -/
def pyRandint (ent : Entropy) (c : Counters) (a b : ℤ) : ℤ × Counters :=
  (a + (ent.py c.py : ℤ) % (b - a + 1), c.bumpPy)

/-- random.random(): a value in [0, 1). -/
def pyRandom (ent : Entropy) (c : Counters) : ℚ × Counters :=
  (((ent.py c.py % 1000000000 : ℕ) : ℚ) / 1000000000, c.bumpPy)

/-- random.choice(l): an element of l selected by the next raw value. -/
def pyChoice {α : Type} [Inhabited α] (ent : Entropy) (c : Counters) (l : List α) :
    α × Counters :=
  (l.getD (ent.py c.py % l.length) default, c.bumpPy)

/-- random.choices(l, weights)[0]: one element of l.  All weight tables in
the source are strictly positive, so the support is all of l; the embedding
abstracts the cumulative-weight inversion and keeps the support. -/
def pyChoicesW {α : Type} [Inhabited α] (ent : Entropy) (c : Counters) (l : List α)
    (_weights : List ℚ) : α × Counters :=
  (l.getD (ent.py c.py % l.length) default, c.bumpPy)

/-- fake.name(): a stream-determined person name. -/
def fakeName (ent : Entropy) (c : Counters) : String × Counters :=
  ("Person " ++ Nat.repr (ent.fk c.fk), c.bumpFk)

/-- fake.sentence(nb_words): a stream-determined sentence. -/
def fakeSentence (ent : Entropy) (c : Counters) (_nbWords : ℕ) : String × Counters :=
  ("Sentence " ++ Nat.repr (ent.fk c.fk), c.bumpFk)

/-! ## Fixed configuration tables of PharmaceuticalDataGenerator -/

structure Product where
  name : String
  code : String
  batchPrefix : String
deriving DecidableEq, Repr, Inhabited

def PRODUCTS : List Product :=
  [⟨"Paracetamol 500mg Tablets", "PARA-500-TAB", "PARA"⟩,
   ⟨"Ibuprofen 400mg Tablets", "IBU-400-TAB", "IBU"⟩,
   ⟨"Aspirin 100mg Tablets", "ASP-100-TAB", "ASP"⟩]

def TABLET_PRESSES : List String := ["Press-A", "Press-B", "Press-C", "Press-D"]
def GRANULATORS : List String := ["Gran-01", "Gran-02", "Gran-03"]
def DRYERS : List String := ["FBD-01", "FBD-02", "FBD-03"]
def BLENDERS : List String := ["Blend-01", "Blend-02", "Blend-03"]

def OPERATORS : List String :=
  (List.range 50).map (fun i => "OP-" ++ padNum 3 (i + 1))
def QC_ANALYSTS : List String :=
  (List.range 30).map (fun i => "QC-" ++ padNum 3 (i + 1))
def QP_LIST : List String :=
  (List.range 9).map (fun i => "QP-" ++ padNum 2 (i + 1))

def HPLC_SYSTEMS : List String := ["HPLC-01", "HPLC-02", "HPLC-03", "HPLC-04"]
def DISSOLUTION_APPARATUS : List String := ["Diss-01", "Diss-02", "Diss-03"]

structure Cleanroom where
  code : String
  name : String
  iso : String
deriving DecidableEq, Repr, Inhabited

def CLEANROOMS : List Cleanroom :=
  [⟨"CR-001", "Dispensing Area", "ISO 8"⟩,
   ⟨"CR-002", "Granulation Suite", "ISO 8"⟩,
   ⟨"CR-003", "Compression Room A", "ISO 7"⟩,
   ⟨"CR-004", "Compression Room B", "ISO 7"⟩,
   ⟨"CR-005", "Packaging Hall", "ISO 8"⟩,
   ⟨"CR-006", "QC Laboratory", "ISO 7"⟩]

structure Supplier where
  id : String
  name : String
  materials : List String
deriving DecidableEq, Repr, Inhabited

def SUPPLIERS : List Supplier :=
  [⟨"SUP-001", "ChemPharma Inc.", ["Paracetamol API", "Ibuprofen API"]⟩,
   ⟨"SUP-002", "ExcipientCorp", ["MCC", "Lactose", "Starch"]⟩,
   ⟨"SUP-003", "BinderSolutions", ["PVP K30", "HPMC"]⟩,
   ⟨"SUP-004", "CoatingMasters", ["Opadry", "Titanium Dioxide"]⟩,
   ⟨"SUP-005", "PackagingPro", ["HDPE Bottles", "Blister Foil"]⟩,
   ⟨"SUP-006", "GlobalAPI Ltd.", ["Aspirin API"]⟩]

/-- COMPLAINT_CATEGORIES as an association list in dict insertion order. -/
def COMPLAINT_CATEGORIES : List (String × List String) :=
  [("Product Quality",
    ["Broken tablets", "Discolored tablets", "Chipped tablets",
     "Foreign particle", "Odor complaint", "Wrong count", "Packaging damage"]),
   ("Efficacy", ["Not effective", "Delayed onset", "Short duration"]),
   ("Adverse Event", ["Allergic reaction", "GI upset", "Headache", "Skin rash", "Nausea"]),
   ("Labeling", ["Missing expiry", "Illegible lot", "Wrong instructions"])]

def MARKETS : List String :=
  ["USA", "Canada", "UK", "Germany", "France", "Australia", "Japan", "Brazil",
   "India", "Mexico", "Spain", "Italy"]

def CAPA_SOURCES : List String :=
  ["Deviation", "Customer Complaint", "OOS Investigation", "Internal Audit",
   "External Audit", "Management Review", "Trend Analysis", "Self-Identified"]

def ROOT_CAUSE_CATEGORIES : List String :=
  ["Procedure not followed", "Procedure inadequate", "Training deficiency",
   "Equipment malfunction", "Environmental factor", "Raw material variation",
   "Human error", "Communication failure", "Design flaw", "Supplier issue"]

/-! ## Scenario table (_get_scenario_adjustments) -/

/-- The adjustments dict returned by _get_scenario_adjustments. -/
structure Adjustments where
  yield_modifier : ℚ
  hardness_modifier : ℚ
  dissolution_modifier : ℚ
  complaint_rate_modifier : ℚ
  capa_rate_modifier : ℚ
  scenario_description : Option String
deriving DecidableEq, Repr, Inhabited

/-- _get_scenario_adjustments(date, equipment): the chained conditionals of
the source, each mutating the adjustments dict. -/
def scenarioAdjustments (date : Date) (equipment : Option String) : Adjustments :=
  let a : Adjustments := ⟨0, 0, 0, 1.0, 1.0, none⟩
  -- 2020: COVID-19 impact (March-May)
  let a := if date.year = 2020 ∧ date.month ∈ ([3, 4, 5] : List ℕ) then
    { a with yield_modifier := -2.0, scenario_description := some "COVID-19 disruption" }
    else a
  -- 2021: Press-A degradation (Sept-Nov)
  let a := if date.year = 2021 ∧ date.month ∈ ([9, 10, 11] : List ℕ)
      ∧ equipment = some "Press-A" then
    let dayInPeriod : ℤ := (rataDie date : ℤ) - (rataDie ⟨2021, 9, 1⟩ : ℤ)
    { a with hardness_modifier := min ((dayInPeriod : ℚ) * 0.05) 2.0,
             scenario_description := some "Press-A wear" }
    else a
  -- 2022: MCC supplier issue (June)
  let a := if date.year = 2022 ∧ date.month = 6 then
    { a with dissolution_modifier := -5.0, complaint_rate_modifier := 1.5,
             scenario_description := some "MCC excipient issue" }
    else a
  -- 2023: Lab method transition (Q2)
  let a := if date.year = 2023 ∧ date.month ∈ ([4, 5, 6] : List ℕ) then
    { a with scenario_description := some "Method transition" }
    else a
  -- 2024: Summer temperature effect (Jul-Aug)
  let a := if date.year = 2024 ∧ date.month ∈ ([7, 8] : List ℕ) then
    { a with scenario_description := some "Summer heat effect" }
    else a
  -- 2025: Press-B drift + API supplier change (Aug)
  let a := if date.year = 2025 ∧ date.month = 8 then
    let a := if equipment = some "Press-B" ∧ date.day ≤ 15 then
      { a with hardness_modifier := 1.5, dissolution_modifier := -8.0 }
      else a
    { a with scenario_description := some "Press-B drift & new API supplier" }
    else a
  -- 2025: New API supplier adjustment period (Nov-Dec)
  let a := if date.year = 2025 ∧ date.month ∈ ([11, 12] : List ℕ) then
    { a with yield_modifier := -1.0, capa_rate_modifier := 1.3,
             scenario_description := some "New API supplier adjustment" }
    else a
  a

/-! ## Manufacturing generator (generate_manufacturing_data) -/

/-- batch_id = product batch-prefix, dash, last two digits of the year,
dash, 5-digit zero-padded global sequence number.  str(year)[-2:] equals the
2-padded year mod 100 for every year of the generated timeline. -/
def mkBatchId (p : String) (year seq : ℕ) : String :=
  p ++ "-" ++ padNum 2 (year % 100) ++ "-" ++ padNum 5 seq

/-- One manufacturing record (the dict appended per batch).  Dates are
carried as Date values (the CSV stores their renderings); the start
timestamp is carried as hour and minute components, and the end timestamp as
the process-time offset in hours from the start. -/
structure MfgRow where
  batch_id : String
  product_name : String
  product_code : String
  batch_size_kg : ℚ
  manufacturing_date : Date
  manufacturing_start_hour : ℕ
  manufacturing_start_minute : ℕ
  manufacturing_end_hours_after_start : ℚ
  shift : String
  process_time_hours : ℚ
  operator_primary : String
  operator_secondary : String
  tablet_press_id : String
  granulator_id : String
  dryer_id : String
  blender_id : String
  api_weight_kg : ℚ
  excipient_weight_kg : ℚ
  granulation_mixing_time_min : ℚ
  binder_volume_ml : ℚ
  granulation_temp_c : ℚ
  inlet_air_temp_c : ℚ
  outlet_air_temp_c : ℚ
  drying_time_min : ℚ
  moisture_content_pct : ℚ
  compression_force_main_kn : ℚ
  compression_force_pre_kn : ℚ
  turret_speed_rpm : ℚ
  tablet_weight_mg : ℚ
  tablet_thickness_mm : ℚ
  tablet_hardness_n : ℚ
  friability_pct : ℚ
  disintegration_time_min : ℚ
  theoretical_yield_tablets : ℤ
  actual_yield_tablets : ℤ
  yield_percent : ℚ
  reject_count : ℤ
  reject_reason : String
  has_deviation : String
  deviation_id : String
  deviation_type : String
  room_temp_c : ℚ
  room_humidity_pct : ℚ
  differential_pressure_pa : ℚ
  batch_status : String
  release_status : String
deriving DecidableEq, Inhabited

/-- The body of the inner per-batch loop of generate_manufacturing_data. -/
def mfgBatch (ent : Entropy) (product : Product) (day : Date) (batchIndex : ℕ)
    (c : Counters) : MfgRow × Counters :=
  let batchId := mkBatchId product.batchPrefix day.year batchIndex
  -- Shift assignment
  let (shift, c) := pyChoicesW ent c ["Day", "Evening", "Night"] [1/2, 7/20, 3/20]
  let hrRange : ℤ × ℤ :=
    if shift = "Day" then (6, 13) else if shift = "Evening" then (14, 21) else (22, 29)
  let (sh, c) := pyRandint ent c hrRange.1 hrRange.2
  let startHour : ℕ := (sh % 24).toNat
  let (startMinute, c) := pyRandint ent c 0 59
  -- Equipment assignment
  let (tabletPress, c) := pyChoice ent c TABLET_PRESSES
  let (granulator, c) := pyChoice ent c GRANULATORS
  let (dryer, c) := pyChoice ent c DRYERS
  let (blender, c) := pyChoice ent c BLENDERS
  -- Get scenario adjustments for this specific equipment
  let equipAdj := scenarioAdjustments day (some tabletPress)
  -- Operators
  let (operatorPrimary, c) := pyChoice ent c OPERATORS
  let (operatorSecondary, c) := pyChoice ent c (OPERATORS.filter (· ≠ operatorPrimary))
  -- Process parameters
  let (z, c) := npNormal ent c 50.0 0.5
  let apiWeight := pyRound z 3
  let (z, c) := npNormal ent c 45.0 0.4
  let excipientWeight := pyRound z 3
  let batchSize := pyRound (apiWeight + excipientWeight) 3
  -- Granulation parameters
  let (z, c) := npNormal ent c 15.0 1.0
  let granulationMixingTime := pyRound z 2
  let (z, c) := npNormal ent c 2500 100
  let binderVolume := pyRound z 1
  let (z, c) := npNormal ent c 28 2
  let granulationTemp := pyRound z 1
  -- Drying parameters
  let (z, c) := npNormal ent c 60 2
  let inletAirTemp := pyRound z 1
  let (z, c) := npNormal ent c 40 2
  let outletAirTemp := pyRound z 1
  let (z, c) := npNormal ent c 45 5
  let dryingTime := pyRound z 1
  let (z, c) := npNormal ent c 2.0 0.3
  let moistureContent := pyRound z 2
  -- Adjust for summer heat (fresh draws consumed only inside the branch)
  let (inletAirTemp, outletAirTemp, c) :=
    if equipAdj.scenario_description = some "Summer heat effect" then
      let (z1, c) := npNormal ent c 63 3
      let (z2, c) := npNormal ent c 43 2
      (pyRound z1 1, pyRound z2 1, c)
    else (inletAirTemp, outletAirTemp, c)
  -- Compression parameters
  let (z, c) := npNormal ent c 18.0 1.5
  let compressionForceMain := pyRound (z + equipAdj.hardness_modifier) 2
  let (z, c) := npNormal ent c 3.0 0.3
  let compressionForcePre := pyRound z 2
  let (z, c) := npNormal ent c 45 3
  let turretSpeed := pyRound z 1
  let (z, c) := npNormal ent c 500 5
  let tabletWeight := pyRound z 1
  let (z, c) := npNormal ent c 4.5 0.1
  let tabletThickness := pyRound z 2
  let (z, c) := npNormal ent c (120 + equipAdj.hardness_modifier * 5) 10
  let tabletHardness := pyRound z 1
  let (z, c) := npExponential ent c 0.3
  let friability := pyRound z 3
  let (z, c) := npNormal ent c 8 2
  let disintegrationTime := pyRound z 1
  -- Yield calculations
  let theoreticalYield : ℤ := pyTrunc (apiWeight * 1000 / 0.5 * 1000)
  let baseYieldPct := 98.5 + equipAdj.yield_modifier
  let (z, c) := npNormal ent c baseYieldPct 1.0
  let actualYieldPct := pyRound z 2
  let actualYieldPct := max 90.0 (min 100.0 actualYieldPct)
  let actualYield : ℤ := pyTrunc ((theoreticalYield : ℚ) * actualYieldPct / 100)
  -- Rejects
  let (z, c) := npExponential ent c 50
  let rejectCount : ℤ := pyTrunc z
  let (rejectReason, c) :=
    if rejectCount > 10 then
      pyChoice ent c ["Weight", "Capping", "Sticking", "Chipping", "None"]
    else ("None", c)
  -- Deviation tracking
  let (r, c) := pyRandom ent c
  let hasDeviation := r < 0.02
  let (deviationId, c) :=
    if hasDeviation then
      let (n, c) := pyRandint ent c 1 999
      ("DEV-" ++ Nat.repr day.year ++ "-" ++ padNum 3 n.toNat, c)
    else ("", c)
  let (deviationType, c) :=
    if hasDeviation then pyChoice ent c ["Process", "Equipment", "Material", "Documentation"]
    else ("", c)
  -- Environment
  let (z, c) := npNormal ent c 22 1
  let roomTemp := pyRound z 1
  let (z, c) := npNormal ent c 45 5
  let roomHumidity := pyRound z 1
  let (z, c) := npNormal ent c 15 2
  let diffPressure := pyRound z 1
  -- Timing
  let (z, c) := npNormal ent c 8 1
  let processTime := pyRound z 2
  (⟨batchId, product.name, product.code, batchSize, day, startHour,
    (startMinute % 60).toNat, processTime, shift, processTime, operatorPrimary,
    operatorSecondary, tabletPress, granulator, dryer, blender, apiWeight,
    excipientWeight, granulationMixingTime, binderVolume, granulationTemp,
    inletAirTemp, outletAirTemp, dryingTime, moistureContent,
    compressionForceMain, compressionForcePre, turretSpeed, tabletWeight,
    tabletThickness, tabletHardness, friability, disintegrationTime,
    theoreticalYield, actualYield, actualYieldPct, rejectCount, rejectReason,
    (if hasDeviation then "Yes" else "No"), deviationId, deviationType,
    roomTemp, roomHumidity, diffPressure, "Complete", "Pending QC"⟩, c)

/-- The inner for-loop over the batches of one day, threading the global
batch index. -/
def mfgBatches (ent : Entropy) (product : Product) (day : Date) :
    ℕ → ℕ → Counters → List MfgRow × ℕ × Counters
  | 0, batchIndex, c => ([], batchIndex, c)
  | n + 1, batchIndex, c =>
    let (row, c) := mfgBatch ent product day batchIndex c
    let (rest, batchIndex2, c2) := mfgBatches ent product day n (batchIndex + 1) c
    (row :: rest, batchIndex2, c2)

/-- The per-day batch count: the batches_per_day argument, except a reduced
random count in the COVID-19 window. -/
def dailyBatchCount (ent : Entropy) (day : Date) (batchesPerDay : ℕ)
    (c : Counters) : ℕ × Counters :=
  let adjustments := scenarioAdjustments day none
  if adjustments.scenario_description = some "COVID-19 disruption" then
    let (k, c) := pyRandint ent c 10 15
    (k.toNat, c)
  else (batchesPerDay, c)

/-- The outer while-loop over the days of the range: per-day batch count
(reduced during the COVID-19 window), then the per-batch loop. -/
def mfgDays (ent : Entropy) (product : Product) (batchesPerDay : ℕ) :
    List Date → ℕ → Counters → List MfgRow × ℕ × Counters
  | [], batchIndex, c => ([], batchIndex, c)
  | day :: rest, batchIndex, c =>
    let (dailyBatches, c) := dailyBatchCount ent day batchesPerDay c
    let (rows, batchIndex, c) := mfgBatches ent product day dailyBatches batchIndex c
    let (rows2, batchIndex2, c2) := mfgDays ent product batchesPerDay rest batchIndex c
    (rows ++ rows2, batchIndex2, c2)

/-- generate_manufacturing_data(start_date, end_date, batches_per_day,
product_index).  The incoming counter state c0 is discarded by the
self._reset_seed() call that opens the method. -/
def generate_manufacturing_data (ent : Entropy) (startDate endDate : Date)
    (batchesPerDay : ℕ) (productIndex : ℕ) (_c0 : Counters) : List MfgRow × Counters :=
  let c := Counters.zero
  let product := PRODUCTS.getD productIndex default
  let days := dateRange startDate (numDaysInclusive startDate endDate)
  let (rows, _, c) := mfgDays ent product batchesPerDay days 1 c
  (rows, c)

/-! ## QC generator (generate_qc_data) -/

/-- One QC record (the dict appended per batch). -/
structure QCRow where
  sample_id : String
  batch_id : String
  test_date : Date
  product_name : String
  product_code : String
  analyst_chemical : String
  analyst_physical : String
  hplc_system : String
  dissolution_apparatus : String
  id_ir_result : String
  id_hplc_rt_min : ℚ
  assay_percent : ℚ
  assay_result : String
  dissolution_vessel_1 : ℚ
  dissolution_vessel_2 : ℚ
  dissolution_vessel_3 : ℚ
  dissolution_vessel_4 : ℚ
  dissolution_vessel_5 : ℚ
  dissolution_vessel_6 : ℚ
  dissolution_mean : ℚ
  dissolution_min : ℚ
  dissolution_result : String
  cu_acceptance_value : ℚ
  cu_result : String
  impurity_a_pct : ℚ
  impurity_b_pct : ℚ
  total_impurities_pct : ℚ
  impurities_result : String
  hardness_mean_kp : ℚ
  friability_pct : ℚ
  disintegration_max_min : ℚ
  weight_mean_mg : ℚ
  weight_rsd_pct : ℚ
  tamc_cfu_g : ℤ
  tymc_cfu_g : ℤ
  micro_result : String
  overall_result : String
  comments : String
deriving DecidableEq, Inhabited

/-- The body of the per-batch loop of generate_qc_data. -/
def qcRow (ent : Entropy) (m : MfgRow) (c : Counters) : QCRow × Counters :=
  let mfgDate := m.manufacturing_date
  -- Testing 1-3 days after manufacturing
  let (dt, c) := pyRandint ent c 1 3
  let testDate := addDays mfgDate dt.toNat
  -- Get scenario adjustments
  let adjustments := scenarioAdjustments testDate (some m.tablet_press_id)
  -- Analysts
  let (analystChemical, c) := pyChoice ent c QC_ANALYSTS
  let (analystPhysical, c) := pyChoice ent c (QC_ANALYSTS.filter (· ≠ analystChemical))
  -- Equipment
  let (hplcSystem, c) := pyChoice ent c HPLC_SYSTEMS
  let (dissApparatus, c) := pyChoice ent c DISSOLUTION_APPARATUS
  let sampleId := "QC-" ++ m.batch_id
  -- Identification
  let (r, c) := pyRandom ent c
  let idIrResult := if r > 0.001 then "Conforms" else "Does Not Conform"
  let (z, c) := npNormal ent c 8.5 0.1
  let idHplcRt := pyRound z 3
  -- Assay (95-105 spec)
  let assayBase : ℚ :=
    if adjustments.scenario_description = some "Method transition" then 101.5 else 100.0
  let (z, c) := npNormal ent c assayBase 1.5
  let assayPercent := pyRound z 2
  let assayResult := if 95.0 ≤ assayPercent ∧ assayPercent ≤ 105.0 then "Pass" else "Fail"
  -- Dissolution: six vessel draws around the scenario-adjusted center
  let dissBase := 92.0 + adjustments.dissolution_modifier
  let dissStd : ℚ := 3.0
  let (z, c) := npNormal ent c dissBase dissStd
  let v1 := pyRound z 1
  let (z, c) := npNormal ent c dissBase dissStd
  let v2 := pyRound z 1
  let (z, c) := npNormal ent c dissBase dissStd
  let v3 := pyRound z 1
  let (z, c) := npNormal ent c dissBase dissStd
  let v4 := pyRound z 1
  let (z, c) := npNormal ent c dissBase dissStd
  let v5 := pyRound z 1
  let (z, c) := npNormal ent c dissBase dissStd
  let v6 := pyRound z 1
  let dissolutionVessels : List ℚ := [v1, v2, v3, v4, v5, v6]
  let dissolutionMean := pyRound (npMean dissolutionVessels) 1
  let dissolutionMin := listMin dissolutionVessels
  let dissolutionResult := if dissolutionMin ≥ 75.0 then "Pass" else "Fail"
  -- Content uniformity: ten values, acceptance value from mean and std
  let (z, c) := npNormal ent c 100 2
  let u1 := pyRound z 1
  let (z, c) := npNormal ent c 100 2
  let u2 := pyRound z 1
  let (z, c) := npNormal ent c 100 2
  let u3 := pyRound z 1
  let (z, c) := npNormal ent c 100 2
  let u4 := pyRound z 1
  let (z, c) := npNormal ent c 100 2
  let u5 := pyRound z 1
  let (z, c) := npNormal ent c 100 2
  let u6 := pyRound z 1
  let (z, c) := npNormal ent c 100 2
  let u7 := pyRound z 1
  let (z, c) := npNormal ent c 100 2
  let u8 := pyRound z 1
  let (z, c) := npNormal ent c 100 2
  let u9 := pyRound z 1
  let (z, c) := npNormal ent c 100 2
  let u10 := pyRound z 1
  let cuValues : List ℚ := [u1, u2, u3, u4, u5, u6, u7, u8, u9, u10]
  let cuAv := pyRound (|npMean cuValues - 100| + 2.4 * npStd cuValues) 1
  let cuResult := if cuAv ≤ 15.0 then "Pass" else "Fail"
  -- Impurities
  let (z, c) := npExponential ent c 0.05
  let impurityA := pyRound z 3
  let (z, c) := npExponential ent c 0.03
  let impurityB := pyRound z 3
  let (z, c) := npExponential ent c 0.02
  let totalImpurities := pyRound (impurityA + impurityB + z) 3
  let impuritiesResult := if totalImpurities ≤ 1.0 then "Pass" else "Fail"
  -- Physical tests
  let (z, c) := npNormal ent c (12.0 + adjustments.hardness_modifier * 0.5) 1
  let hardnessMean := pyRound z 1
  let (z, c) := npExponential ent c 0.3
  let friability := pyRound z 2
  let (z, c) := npNormal ent c 8 2
  let disintegrationMax := pyRound z 1
  let (z, c) := npNormal ent c 500 3
  let weightMean := pyRound z 1
  let (z, c) := npExponential ent c 1.0
  let weightRsd := pyRound z 2
  -- Microbial limits
  let (z, c) := npExponential ent c 50
  let tamc : ℤ := pyTrunc z
  let (z, c) := npExponential ent c 20
  let tymc : ℤ := pyTrunc z
  let microResult := if tamc < 1000 ∧ tymc < 100 then "Pass" else "Fail"
  -- Overall result
  let allPass : Prop :=
    assayResult = "Pass" ∧ dissolutionResult = "Pass" ∧ cuResult = "Pass" ∧
      impuritiesResult = "Pass" ∧ microResult = "Pass" ∧
      friability < 1.0 ∧ disintegrationMax < 15
  let overallResult := if allPass then "Pass" else "Fail"
  (⟨sampleId, m.batch_id, testDate, m.product_name, m.product_code,
    analystChemical, analystPhysical, hplcSystem, dissApparatus, idIrResult,
    idHplcRt, assayPercent, assayResult, v1, v2, v3, v4, v5, v6,
    dissolutionMean, dissolutionMin, dissolutionResult, cuAv, cuResult,
    impurityA, impurityB, totalImpurities, impuritiesResult, hardnessMean,
    friability, disintegrationMax, weightMean, weightRsd, tamc, tymc,
    microResult, overallResult,
    (if overallResult = "Pass" then "" else "Investigation required")⟩, c)

/-- The per-batch loop of generate_qc_data over the manufacturing rows. -/
def qcRows (ent : Entropy) : List MfgRow → Counters → List QCRow × Counters
  | [], c => ([], c)
  | m :: rest, c =>
    let (row, c) := qcRow ent m c
    let (tail, c2) := qcRows ent rest c
    (row :: tail, c2)

/-- generate_qc_data(manufacturing_df).  The incoming counter state is
discarded by the self._reset_seed() call that opens the method. -/
def generate_qc_data (ent : Entropy) (manufacturing : List MfgRow)
    (_c0 : Counters) : List QCRow × Counters :=
  let c := Counters.zero
  qcRows ent manufacturing c

/-! ## Complaints generator (generate_complaints_data) -/

/-- Python substring containment (needle in haystack) on strings. -/
def strContains (hay needle : String) : Prop := needle.data <:+: hay.data

instance (hay needle : String) : Decidable (strContains hay needle) :=
  List.decidableInfix needle.data hay.data

/-- One complaint record. -/
structure ComplaintRow where
  complaint_id : String
  complaint_date : Date
  batch_id : String
  product_name : String
  product_code : String
  category : String
  description : String
  severity : String
  market : String
  reporter_type : String
  investigation_required : String
  root_cause : String
  investigation_outcome : String
  regulatory_reportable : String
  capa_reference : String
  status : String
  days_to_close : Option ℤ
deriving DecidableEq, Inhabited

/-- The body executed when the Bernoulli complaint draw succeeds:
everything inside the if of the per-batch loop.  now is the wall clock
datetime.now() read that drives the status fields. -/
def complaintBody (ent : Entropy) (now : Date) (mfgRow : MfgRow)
    (complaintIndex : ℕ) (c : Counters) : ComplaintRow × Counters :=
  let mfgDate := mfgRow.manufacturing_date
  -- Complaint received 2-90 days after manufacturing
  let (dd, c) := pyRandint ent c 2 90
  let complaintDate := addDays mfgDate dd.toNat
  let year := complaintDate.year
  let complaintId := "CMP-" ++ Nat.repr year ++ "-" ++ padNum 5 complaintIndex
  let (category, c) := pyChoice ent c (COMPLAINT_CATEGORIES.map Prod.fst)
  let (description, c) :=
    pyChoice ent c (((COMPLAINT_CATEGORIES.filter (fun p => p.1 = category)).headD
      ("", [])).2)
  let (severity, c) := pyChoicesW ent c ["Critical", "Major", "Minor"]
    [1/20, 1/4, 7/10]
  let (severity, c) :=
    if category = "Adverse Event" then
      pyChoicesW ent c ["Critical", "Major"] [2/5, 3/5]
    else (severity, c)
  let (market, c) := pyChoice ent c MARKETS
  let (reporterType, c) := pyChoicesW ent c
    ["Patient", "Healthcare Professional", "Pharmacist", "Distributor"]
    [2/5, 3/10, 1/5, 1/10]
  let (investigationRequired, c) :=
    if severity ∈ (["Critical", "Major"] : List String) then ("Yes", c)
    else pyChoice ent c ["Yes", "No"]
  -- Investigation outcome
  let (rootCause, investigationOutcome, c) :=
    if investigationRequired = "Yes" then
      let (rc, c) := pyChoice ent c
        ["Manufacturing process variation", "Storage condition issue",
         "Packaging defect", "User handling error", "No issue confirmed",
         "Transportation damage"]
      let (oc, c) := pyChoice ent c
        ["Confirmed - CAPA initiated", "Not confirmed - No action required",
         "Confirmed - Process adjustment made", "Under investigation"]
      (rc, oc, c)
    else ("", "Not investigated", c)
  let regulatoryReportable :=
    if category = "Adverse Event" ∧ severity = "Critical" then "Yes" else "No"
  -- CAPA reference
  let (capaRef, c) :=
    if strContains investigationOutcome "CAPA" then
      let (n, c) := pyRandint ent c 1 200
      ("CAPA-" ++ Nat.repr year ++ "-" ++ padNum 3 n.toNat, c)
    else ("", c)
  -- Status from elapsed days relative to now
  let daysSince : ℤ := (rataDie now : ℤ) - (rataDie complaintDate : ℤ)
  let (status, c) :=
    if daysSince > 60 then ("Closed", c)
    else if daysSince > 30 then pyChoice ent c ["Closed", "Under Investigation"]
    else pyChoice ent c ["Open", "Under Investigation"]
  let (daysToClose, c) :=
    if status = "Closed" then
      let (n, c) := pyRandint ent c 5 45
      (some n, c)
    else (none, c)
  (⟨complaintId, complaintDate, mfgRow.batch_id, mfgRow.product_name,
    mfgRow.product_code, category, description, severity, market, reporterType,
    investigationRequired, rootCause, investigationOutcome,
    regulatoryReportable, capaRef, status, daysToClose⟩, c)

/-- The per-batch loop of generate_complaints_data: for each batch id, look
up its (first) manufacturing row, draw the Bernoulli complaint event at the
scenario-modified rate, and emit a complaint when it fires. -/
def complaintsLoop (ent : Entropy) (now : Date) (manufacturing : List MfgRow)
    (complaintRate : ℚ) : List String → ℕ → Counters → List ComplaintRow × Counters
  | [], _, c => ([], c)
  | bid :: rest, complaintIndex, c =>
    let mfgRow := (manufacturing.filter (fun m => m.batch_id = bid)).headD default
    let mfgDate := mfgRow.manufacturing_date
    let adjustments := scenarioAdjustments mfgDate none
    let effectiveRate := complaintRate * adjustments.complaint_rate_modifier
    let (r, c) := pyRandom ent c
    if r < effectiveRate then
      let (row, c) := complaintBody ent now mfgRow complaintIndex c
      let (tail, c2) := complaintsLoop ent now manufacturing complaintRate rest
        (complaintIndex + 1) c
      (row :: tail, c2)
    else
      complaintsLoop ent now manufacturing complaintRate rest complaintIndex c

/-- generate_complaints_data(manufacturing_df, complaint_rate=0.008). -/
def generate_complaints_data (ent : Entropy) (manufacturing : List MfgRow)
    (complaintRate : ℚ) (now : Date) (_c0 : Counters) :
    List ComplaintRow × Counters :=
  let c := Counters.zero
  let batchIds := manufacturing.map MfgRow.batch_id
  complaintsLoop ent now manufacturing complaintRate batchIds 1 c

/-! ## CAPA generator (generate_capa_data) -/

/-- One CAPA record. -/
structure CapaRow where
  capa_id : String
  capa_type : String
  source : String
  source_reference : String
  open_date : Date
  problem_statement : String
  problem_category : String
  risk_score : String
  rca_method : String
  root_cause_category : String
  root_cause_description : String
  responsible_department : String
  capa_owner : String
  target_date : Date
  actual_completion_date : Option Date
  days_to_close : Option ℤ
  status : String
  effectiveness_verified : String
  num_actions : ℤ
deriving DecidableEq, Inhabited

/-- The body of the inner per-CAPA loop for one month bucket. -/
def capaBody (ent : Entropy) (now : Date) (year month : ℕ) (capaIndex : ℕ)
    (c : Counters) : CapaRow × Counters :=
  let (dayN, c) := pyRandint ent c 1 28
  let openDate : Date := ⟨year, month, dayN.toNat⟩
  let capaId := "CAPA-" ++ Nat.repr year ++ "-" ++ padNum 4 capaIndex
  let (source, c) := pyChoicesW ent c CAPA_SOURCES
    [7/20, 1/5, 3/20, 1/10, 1/20, 1/20, 1/20, 1/20]
  let (sourceRef, c) :=
    if source = "Deviation" then
      let (n, c) := pyRandint ent c 1 500
      ("DEV-" ++ Nat.repr year ++ "-" ++ padNum 4 n.toNat, c)
    else if source = "Customer Complaint" then
      let (n, c) := pyRandint ent c 1 200
      ("CMP-" ++ Nat.repr year ++ "-" ++ padNum 5 n.toNat, c)
    else if source = "OOS Investigation" then
      let (n, c) := pyRandint ent c 1 100
      ("OOS-" ++ Nat.repr year ++ "-" ++ padNum 3 n.toNat, c)
    else
      let (n, c) := pyRandint ent c 1 50
      ("REF-" ++ Nat.repr year ++ "-" ++ padNum 3 n.toNat, c)
  let (capaType, c) := pyChoice ent c
    ["Corrective", "Preventive", "Corrective & Preventive"]
  let (problemCategory, c) := pyChoice ent c
    ["Process deviation", "Equipment failure", "Documentation error",
     "Training gap", "Supplier issue", "Environmental excursion"]
  let (problemStatement, c) := fakeSentence ent c 12
  let (rootCauseCategory, c) := pyChoice ent c ROOT_CAUSE_CATEGORIES
  let (rootCauseDesc, c) := fakeSentence ent c 15
  let (rcaMethod, c) := pyChoice ent c
    ["5 Whys", "Fishbone Diagram", "Fault Tree Analysis", "FMEA"]
  let (riskScore, c) := pyChoicesW ent c ["Critical", "High", "Medium", "Low"]
    [1/20, 3/20, 1/2, 3/10]
  let (responsibleDept, c) := pyChoice ent c
    ["Manufacturing", "Quality Control", "Quality Assurance",
     "Warehouse", "Engineering", "Packaging"]
  let (capaOwner, c) := pyChoice ent c (OPERATORS.take 20)
  -- Target date 30-90 days from open
  let (tgt, c) := pyRandint ent c 30 90
  let targetDate := addDays openDate tgt.toNat
  -- Status and completion from elapsed days relative to now
  let daysSince : ℤ := (rataDie now : ℤ) - (rataDie openDate : ℤ)
  let (status, actualCompletion, daysToClose, effectivenessVerified, c) :=
    if daysSince > 120 then
      let (st, c) := pyChoicesW ent c ["Closed - Effective", "Closed - Not Effective"]
        [9/10, 1/10]
      let (k, c) := pyRandint ent c (-10) 30
      let actual := addDaysInt targetDate k
      (st, some actual, some ((rataDie actual : ℤ) - (rataDie openDate : ℤ)), "Yes", c)
    else if daysSince > 60 then
      let (st, c) := pyChoicesW ent c ["Closed - Effective", "Implementation", "Verification"]
        [3/5, 1/5, 1/5]
      let (actual, c) :=
        if strContains st "Closed" then
          let (k, c) := pyRandint ent c (-10) 20
          (some (addDaysInt targetDate k), c)
        else (none, c)
      let daysToClose := actual.map (fun a => (rataDie a : ℤ) - (rataDie openDate : ℤ))
      (st, actual, daysToClose, (if strContains st "Closed" then "Yes" else "Pending"), c)
    else
      let (st, c) := pyChoice ent c ["Open", "Implementation", "Root Cause Analysis"]
      (st, none, none, "Pending", c)
  let (numActions, c) := pyRandint ent c 1 5
  (⟨capaId, capaType, source, sourceRef, openDate, problemStatement,
    problemCategory, riskScore, rcaMethod, rootCauseCategory, rootCauseDesc,
    responsibleDept, capaOwner, targetDate, actualCompletion, daysToClose,
    status, effectivenessVerified, numActions⟩, c)

/-- The inner for-loop emitting the months CAPAs. -/
def capaMonth (ent : Entropy) (now : Date) (year month : ℕ) :
    ℕ → ℕ → Counters → List CapaRow × ℕ × Counters
  | 0, capaIndex, c => ([], capaIndex, c)
  | n + 1, capaIndex, c =>
    let (row, c) := capaBody ent now year month capaIndex c
    let (rest, capaIndex2, c2) := capaMonth ent now year month n (capaIndex + 1) c
    (row :: rest, capaIndex2, c2)

/-- The month-by-month loop of generate_capa_data. -/
def capaMonths (ent : Entropy) (now : Date) (baseCount : ℕ) :
    List Date → ℕ → Counters → List CapaRow × Counters
  | [], _, c => ([], c)
  | first :: rest, capaIndex, c =>
    let adjustments := scenarioAdjustments first none
    let monthCapas := (pyTrunc ((baseCount : ℚ) * adjustments.capa_rate_modifier)).toNat
    let (rows, capaIndex, c) := capaMonth ent now first.year first.month monthCapas capaIndex c
    let (rows2, c2) := capaMonths ent now baseCount rest capaIndex c
    (rows ++ rows2, c2)

/-- generate_capa_data(start_date, end_date, base_count=10). -/
def generate_capa_data (ent : Entropy) (startDate endDate : Date)
    (baseCount : ℕ) (now : Date) (_c0 : Counters) : List CapaRow × Counters :=
  let c := Counters.zero
  let firsts := monthFirsts ⟨startDate.year, startDate.month, 1⟩
    (monthCount startDate endDate)
  capaMonths ent now baseCount firsts 1 c

/-! ## Environmental generator (generate_environmental_data) -/

/-- One environmental monitoring record.  The monitoring time is carried as
its hour and minute components. -/
structure EnvRow where
  record_id : String
  monitoring_date : Date
  monitoring_hour : ℕ
  monitoring_minute : ℕ
  room_code : String
  room_name : String
  room_classification : String
  particles_05um_per_m3 : ℤ
  particles_50um_per_m3 : ℤ
  viable_air_cfu_m3 : ℤ
  viable_surface_cfu_plate : ℤ
  temperature_c : ℚ
  humidity_pct : ℚ
  differential_pressure_pa : ℚ
  temperature_in_spec : String
  humidity_in_spec : String
  pressure_in_spec : String
  overall_result : String
  monitored_by : String
deriving DecidableEq, Inhabited

/-- The body of the per-reading loop of generate_environmental_data. -/
def envReading (ent : Entropy) (day : Date) (room : Cleanroom) (reading : ℕ)
    (recordIndex : ℕ) (c : Counters) : EnvRow × Counters :=
  let recordId := "EM-" ++ Nat.repr day.year ++ "-" ++ padNum 6 recordIndex
  -- Sampling time
  let hour := ([8, 14, 20] : List ℕ).getD reading 8
  let (minute, c) := pyRandint ent c 0 30
  -- Particle counts based on room class
  let (particles05, particles50, c) :=
    if room.iso = "ISO 7" then
      let (z1, c) := npNormal ent c 150000 30000
      let (z2, c) := npExponential ent c 200
      (pyTrunc z1, pyTrunc z2, c)
    else
      let (z1, c) := npNormal ent c 2500000 500000
      let (z2, c) := npExponential ent c 10000
      (pyTrunc z1, pyTrunc z2, c)
  -- Viable counts
  let (z, c) := npExponential ent c 5
  let viableAir := pyTrunc z
  let (z, c) := npExponential ent c 3
  let viableSurface := pyTrunc z
  -- Environmental parameters
  let (z, c) := npNormal ent c 21 1
  let temperature := pyRound z 1
  let (z, c) := npNormal ent c 45 5
  let humidity := pyRound z 1
  let (z, c) := npNormal ent c 15 2
  let diffPressure := pyRound z 1
  -- Summer heat effect (July and August of any year; fresh draws in branch)
  let (temperature, humidity, c) :=
    if day.month ∈ ([7, 8] : List ℕ) then
      let (z1, c) := npNormal ent c 23 1.5
      let (z2, c) := npNormal ent c 50 7
      (pyRound z1 1, pyRound z2 1, c)
    else (temperature, humidity, c)
  -- Check limits
  let tempInSpec := 18 ≤ temperature ∧ temperature ≤ 25
  let humidityInSpec := 30 ≤ humidity ∧ humidity ≤ 60
  let pressureInSpec := diffPressure ≥ 10
  let overallResult :=
    if tempInSpec ∧ humidityInSpec ∧ pressureInSpec then "Pass" else "Fail"
  let (monitoredBy, c) := pyChoice ent c (OPERATORS.take 10)
  (⟨recordId, day, hour, (minute.toNat % 60), room.code, room.name, room.iso,
    particles05, particles50, viableAir, viableSurface, temperature, humidity,
    diffPressure, (if tempInSpec then "Yes" else "No"),
    (if humidityInSpec then "Yes" else "No"),
    (if pressureInSpec then "Yes" else "No"), overallResult, monitoredBy⟩, c)

/-- The readings-per-day loop for one room. -/
def envRoomReadings (ent : Entropy) (day : Date) (room : Cleanroom)
    (readingsPerDay : ℕ) : ℕ → ℕ → Counters → List EnvRow × ℕ × Counters
  | reading, recordIndex, c =>
    if _h : reading < readingsPerDay then
      let (row, c) := envReading ent day room reading recordIndex c
      let (rest, recordIndex2, c2) :=
        envRoomReadings ent day room readingsPerDay (reading + 1) (recordIndex + 1) c
      (row :: rest, recordIndex2, c2)
    else ([], recordIndex, c)
  termination_by reading _ _ => readingsPerDay - reading

/-- The per-room loop for one day. -/
def envRooms (ent : Entropy) (day : Date) (readingsPerDay : ℕ) :
    List Cleanroom → ℕ → Counters → List EnvRow × ℕ × Counters
  | [], recordIndex, c => ([], recordIndex, c)
  | room :: rest, recordIndex, c =>
    let (rows, recordIndex, c) := envRoomReadings ent day room readingsPerDay 0 recordIndex c
    let (rows2, recordIndex2, c2) := envRooms ent day readingsPerDay rest recordIndex c
    (rows ++ rows2, recordIndex2, c2)

/-- The daily loop of generate_environmental_data. -/
def envDays (ent : Entropy) (readingsPerDay : ℕ) :
    List Date → ℕ → Counters → List EnvRow × ℕ × Counters
  | [], recordIndex, c => ([], recordIndex, c)
  | day :: rest, recordIndex, c =>
    let (rows, recordIndex, c) := envRooms ent day readingsPerDay CLEANROOMS recordIndex c
    let (rows2, recordIndex2, c2) := envDays ent readingsPerDay rest recordIndex c
    (rows ++ rows2, recordIndex2, c2)

/-- generate_environmental_data(start_date, end_date, readings_per_day=3). -/
def generate_environmental_data (ent : Entropy) (startDate endDate : Date)
    (readingsPerDay : ℕ) (_c0 : Counters) : List EnvRow × Counters :=
  let c := Counters.zero
  let days := dateRange startDate (numDaysInclusive startDate endDate)
  let (rows, _, c) := envDays ent readingsPerDay days 1 c
  (rows, c)

/-! ## Equipment calibration generator (generate_equipment_data) -/

structure EquipSpec where
  id : String
  name : String
  eqType : String
  freqDays : ℕ
  criticality : String
deriving DecidableEq, Inhabited

/-- The in-method equipment_list literal. -/
def EQUIPMENT_LIST : List EquipSpec :=
  [⟨"BAL-001", "Analytical Balance 1", "Balance", 30, "High"⟩,
   ⟨"BAL-002", "Analytical Balance 2", "Balance", 30, "High"⟩,
   ⟨"BAL-003", "Floor Scale", "Balance", 90, "Medium"⟩,
   ⟨"HPLC-01", "HPLC System 1", "Chromatography", 180, "High"⟩,
   ⟨"HPLC-02", "HPLC System 2", "Chromatography", 180, "High"⟩,
   ⟨"DISS-01", "Dissolution Apparatus 1", "Dissolution", 90, "High"⟩,
   ⟨"DISS-02", "Dissolution Apparatus 2", "Dissolution", 90, "High"⟩,
   ⟨"HARD-01", "Hardness Tester 1", "Physical Testing", 30, "Medium"⟩,
   ⟨"HARD-02", "Hardness Tester 2", "Physical Testing", 30, "Medium"⟩,
   ⟨"PH-001", "pH Meter 1", "Electrochemistry", 30, "Medium"⟩,
   ⟨"TEMP-01", "Temperature Probe 1", "Temperature", 365, "High"⟩,
   ⟨"PRESS-A", "Tablet Press A", "Manufacturing", 90, "Critical"⟩,
   ⟨"PRESS-B", "Tablet Press B", "Manufacturing", 90, "Critical"⟩]

structure EquipRow where
  calibration_id : String
  equipment_id : String
  equipment_name : String
  equipment_type : String
  criticality : String
  parameter : String
  scheduled_date : Date
  actual_date : Date
  next_due_date : Date
  as_found_value : ℚ
  as_left_value : ℚ
  deviation : ℚ
  tolerance : ℚ
  out_of_tolerance : String
  result : String
  calibrated_by : String
  reviewed_by : String
deriving DecidableEq, Inhabited

/-- The body of the per-calibration loop. -/
def equipCal (ent : Entropy) (equip : EquipSpec) (scheduledDate : Date)
    (calIndex : ℕ) (c : Counters) : EquipRow × Counters :=
  let calId := "CAL-" ++ Nat.repr scheduledDate.year ++ "-" ++ padNum 5 calIndex
  -- Scheduled vs actual date
  let (delayDays, c) := pyChoicesW ent c ([0, 1, 2, 3, 5, 10] : List ℕ)
    [7/10, 1/10, 1/10, 1/20, 3/100, 1/50]
  let actualDate := addDays scheduledDate delayDays
  let nextDue := addDays actualDate equip.freqDays
  -- Calibration results by equipment type
  let (parameter, asFound, asLeft, tolerance, c) :=
    if equip.eqType = "Balance" then
      let (z1, c) := npNormal ent c 100.000 0.005
      let (z2, c) := npNormal ent c 100.000 0.002
      ("Mass accuracy", pyRound z1 4, pyRound z2 4, (0.01 : ℚ), c)
    else if equip.eqType = "Temperature" then
      let (z1, c) := npNormal ent c 25.0 0.3
      let (z2, c) := npNormal ent c 25.0 0.1
      ("Temperature", pyRound z1 2, pyRound z2 2, (0.5 : ℚ), c)
    else
      let (z1, c) := npNormal ent c 100 2
      let (z2, c) := npNormal ent c 100 1
      ("Performance check", pyRound z1 2, pyRound z2 2, (5.0 : ℚ), c)
  let deviation := |asFound - asLeft|
  let outOfTolerance := deviation > tolerance
  -- result: random.random() is only drawn when out_of_tolerance is truthy
  -- (Python short-circuits the conjunction)
  let (result, c) :=
    if outOfTolerance then
      let (r, c) := pyRandom ent c
      ((if r < 0.05 then "Fail" else "Pass"), c)
    else ("Pass", c)
  let (calBy, c) := pyChoice ent c (QC_ANALYSTS.take 10)
  let (revBy, c) := pyChoice ent c ((QC_ANALYSTS.drop 10).take 10)
  (⟨calId, equip.id, equip.name, equip.eqType, equip.criticality, parameter,
    scheduledDate, actualDate, nextDue, asFound, asLeft, pyRound deviation 4,
    tolerance, (if outOfTolerance then "Yes" else "No"), result, calBy, revBy⟩, c)

/-- The while-loop over one equipments calibration dates. -/
def equipDates (ent : Entropy) (equip : EquipSpec) :
    List Date → ℕ → Counters → List EquipRow × ℕ × Counters
  | [], calIndex, c => ([], calIndex, c)
  | d :: rest, calIndex, c =>
    let (row, c) := equipCal ent equip d calIndex c
    let (rows2, calIndex2, c2) := equipDates ent equip rest (calIndex + 1) c
    (row :: rows2, calIndex2, c2)

/-- The outer loop over the equipment list, threading the global cal index. -/
def equipLoop (ent : Entropy) (startDate endDate : Date) :
    List EquipSpec → ℕ → Counters → List EquipRow × ℕ × Counters
  | [], calIndex, c => ([], calIndex, c)
  | equip :: rest, calIndex, c =>
    let dates := strideDates startDate equip.freqDays
      (strideCount startDate endDate equip.freqDays)
    let (rows, calIndex, c) := equipDates ent equip dates calIndex c
    let (rows2, calIndex2, c2) := equipLoop ent startDate endDate rest calIndex c
    (rows ++ rows2, calIndex2, c2)

/-- generate_equipment_data(start_date, end_date). -/
def generate_equipment_data (ent : Entropy) (startDate endDate : Date)
    (_c0 : Counters) : List EquipRow × Counters :=
  let c := Counters.zero
  let (rows, _, c) := equipLoop ent startDate endDate EQUIPMENT_LIST 1 c
  (rows, c)

/-! ## Stability generator (generate_stability_data) -/

/-- pandas Series.unique: distinct values in first-appearance order. -/
def uniqFirst : List String → List String
  | [] => []
  | a :: t => a :: uniqFirst (t.filter (· ≠ a))
  termination_by l => l.length
  decreasing_by
    simp only [List.length_cons]
    exact Nat.lt_succ_of_le (t.length_filter_le _)

structure StabCondition where
  name : String
  temp : ℕ
  rh : ℕ
  timepoints : List ℕ
deriving DecidableEq, Inhabited

def STAB_CONDITIONS : List StabCondition :=
  [⟨"Long-term", 25, 60, [0, 3, 6, 9, 12, 18, 24, 36]⟩,
   ⟨"Accelerated", 40, 75, [0, 1, 2, 3, 6]⟩,
   ⟨"Intermediate", 30, 65, [0, 3, 6, 9, 12]⟩]

structure StabRow where
  study_id : String
  batch_id : String
  stability_condition : String
  storage_temp_c : ℕ
  storage_rh_pct : ℕ
  timepoint_months : ℕ
  test_date : Date
  assay_percent : ℚ
  dissolution_pct : ℚ
  total_impurities_pct : ℚ
  water_content_pct : ℚ
  appearance : String
  overall_result : String
  analyst : String
deriving DecidableEq, Inhabited

/-- The body of the per-timepoint loop. -/
def stabTimepoint (ent : Entropy) (studyId batchId : String)
    (condition : StabCondition) (mfgDate : Date) (timepoint : ℕ)
    (c : Counters) : StabRow × Counters :=
  let testDate := addDays mfgDate (timepoint * 30)
  -- Degradation over time (accelerated degrades faster)
  let degRate : ℚ :=
    if condition.name = "Accelerated" then 0.08
    else if condition.name = "Intermediate" then 0.04
    else 0.015
  let (z, c) := npNormal ent c 0 0.5
  let assay := pyRound (100.0 - degRate * timepoint + z) 2
  let (z, c) := npNormal ent c 0 1
  let dissolution := pyRound (92.0 - degRate * timepoint * 0.5 + z) 1
  let (z, c) := npExponential ent c 0.02
  let totalImpurities := pyRound (0.1 + degRate * timepoint * 0.3 + z) 3
  let (z, c) := npNormal ent c 0 0.1
  let waterContent := pyRound (2.0 + degRate * timepoint * 0.1 + z) 2
  let inSpec := 95.0 ≤ assay ∧ assay ≤ 105.0 ∧ dissolution ≥ 80.0 ∧
    totalImpurities ≤ 1.0
  let (analyst, c) := pyChoice ent c QC_ANALYSTS
  (⟨studyId, batchId, condition.name, condition.temp, condition.rh, timepoint,
    testDate, assay, dissolution, totalImpurities, waterContent,
    (if assay > 95 then "White, round tablets" else "Slight yellowing observed"),
    (if inSpec then "Pass" else "Fail"), analyst⟩, c)

/-- The per-timepoint loop for one condition of one batch. -/
def stabTimepoints (ent : Entropy) (studyId batchId : String)
    (condition : StabCondition) (mfgDate : Date) :
    List ℕ → Counters → List StabRow × Counters
  | [], c => ([], c)
  | tp :: rest, c =>
    let (row, c) := stabTimepoint ent studyId batchId condition mfgDate tp c
    let (rows2, c2) := stabTimepoints ent studyId batchId condition mfgDate rest c
    (row :: rows2, c2)

/-- The per-condition loop for one selected batch, threading the study index. -/
def stabConditions (ent : Entropy) (batchId : String) (mfgDate : Date) :
    List StabCondition → ℕ → Counters → List StabRow × ℕ × Counters
  | [], studyIndex, c => ([], studyIndex, c)
  | condition :: rest, studyIndex, c =>
    let studyId := "STAB-" ++ Nat.repr mfgDate.year ++ "-" ++ padNum 4 studyIndex
    let (rows, c) := stabTimepoints ent studyId batchId condition mfgDate
      condition.timepoints c
    let (rows2, studyIndex2, c2) := stabConditions ent batchId mfgDate rest
      (studyIndex + 1) c
    (rows ++ rows2, studyIndex2, c2)

/-- The loop over the selected batches. -/
def stabBatches (ent : Entropy) (manufacturing : List MfgRow) :
    List String → ℕ → Counters → List StabRow × ℕ × Counters
  | [], studyIndex, c => ([], studyIndex, c)
  | bid :: rest, studyIndex, c =>
    let mfgRow := (manufacturing.filter (fun m => m.batch_id = bid)).headD default
    let (rows, studyIndex, c) := stabConditions ent bid mfgRow.manufacturing_date
      STAB_CONDITIONS studyIndex c
    let (rows2, studyIndex2, c2) := stabBatches ent manufacturing rest studyIndex c
    (rows ++ rows2, studyIndex2, c2)

/-- generate_stability_data(manufacturing_df, batches_per_study=3): selects
roughly batches_per_study * 4 batches by a stride over the distinct batch
ids, then emits 3 conditions x timepoints per selected batch. -/
def generate_stability_data (ent : Entropy) (manufacturing : List MfgRow)
    (batchesPerStudy : ℕ) (_c0 : Counters) : List StabRow × Counters :=
  let c := Counters.zero
  let batchIds := uniqFirst (manufacturing.map MfgRow.batch_id)
  let step := max 1 (batchIds.length / (batchesPerStudy * 4))
  let selected := (((List.range batchIds.length).filter (fun i => i % step = 0)).map
    (fun i => batchIds.getD i "")).take (batchesPerStudy * 4)
  let (rows, _, c) := stabBatches ent manufacturing selected 1 c
  (rows, c)

/-! ## Raw materials generator (generate_raw_materials_data) -/

def RAW_MATERIALS : List String :=
  ["Paracetamol API", "Ibuprofen API", "Aspirin API",
   "MCC (Microcrystalline Cellulose)", "Lactose Monohydrate", "Pregelatinized Starch",
   "PVP K30 (Povidone)", "HPMC (Hypromellose)", "Magnesium Stearate",
   "Colloidal Silicon Dioxide", "Croscarmellose Sodium", "Opadry Coating"]

structure RawRow where
  grn_number : String
  receipt_date : Date
  material_code : String
  material_name : String
  supplier_id : String
  supplier_name : String
  quantity : ℚ
  unit : String
  batch_lot_number : String
  expiry_date : Date
  coa_received : String
  test_status : String
  disposition : String
  received_by : String
  storage_location : String
deriving DecidableEq, Inhabited

/-- The body of the per-receipt loop for one week. -/
def rawReceipt (ent : Entropy) (weekStart : Date) (grnIndex : ℕ)
    (c : Counters) : RawRow × Counters :=
  let grnNumber := "GRN-" ++ Nat.repr weekStart.year ++ "-" ++ padNum 6 grnIndex
  let (d, c) := pyRandint ent c 0 6
  let receiptDate := addDays weekStart d.toNat
  let (material, c) := pyChoice ent c RAW_MATERIALS
  let (supplier, c) := pyChoice ent c SUPPLIERS
  let (mc, c) := pyRandint ent c 100 999
  let materialCode := "MAT-" ++ (String.mk (material.data.take 3)).toUpper ++ "-"
    ++ Nat.repr mc.toNat
  -- Quantity
  let (quantity, c) :=
    if strContains material "API" then
      let (z, c) := npNormal ent c 100 20
      (pyRound z 1, c)
    else
      let (z, c) := npNormal ent c 500 100
      (pyRound z 1, c)
  let (coaReceived, c) := pyChoicesW ent c ["Yes", "No"] [49/50, 1/50]
  let (testStatus, c) := pyChoice ent c
    ["Pass", "Pass", "Pass", "Pass", "Fail", "Pending"]
  let disposition :=
    if testStatus = "Pass" then "Released"
    else if testStatus = "Fail" then "Rejected"
    else "Quarantine"
  let (lotN, c) := pyRandint ent c 1 99
  let batchLot := String.mk (supplier.id.data.drop (supplier.id.length - 3)) ++ "-"
    ++ padNum 2 (weekStart.year % 100) ++ padNum 2 weekStart.month ++ "-"
    ++ padNum 2 lotN.toNat
  let (expiryDays, c) := pyRandint ent c 365 730
  let expiryDate := addDays receiptDate expiryDays.toNat
  let (receivedBy, c) := pyChoice ent c (OPERATORS.take 10)
  let (wh, c) := pyChoice ent c (["A", "B", "C"] : List String)
  let (loc, c) := pyRandint ent c 1 50
  let storageLocation := "WH-" ++ wh ++ "-" ++ padNum 2 loc.toNat
  (⟨grnNumber, receiptDate, materialCode, material, supplier.id, supplier.name,
    quantity, "kg", batchLot, expiryDate, coaReceived, testStatus, disposition,
    receivedBy, storageLocation⟩, c)

/-- The per-receipt loop of one week. -/
def rawWeekReceipts (ent : Entropy) (weekStart : Date) :
    ℕ → ℕ → Counters → List RawRow × ℕ × Counters
  | 0, grnIndex, c => ([], grnIndex, c)
  | n + 1, grnIndex, c =>
    let (row, c) := rawReceipt ent weekStart grnIndex c
    let (rows2, grnIndex2, c2) := rawWeekReceipts ent weekStart n (grnIndex + 1) c
    (row :: rows2, grnIndex2, c2)

/-- The weekly while-loop of generate_raw_materials_data. -/
def rawWeeks (ent : Entropy) (receiptsPerWeek : ℕ) :
    List Date → ℕ → Counters → List RawRow × ℕ × Counters
  | [], grnIndex, c => ([], grnIndex, c)
  | weekStart :: rest, grnIndex, c =>
    let (k, c) := pyRandint ent c ((receiptsPerWeek : ℤ) - 2) ((receiptsPerWeek : ℤ) + 2)
    let (rows, grnIndex, c) := rawWeekReceipts ent weekStart k.toNat grnIndex c
    let (rows2, grnIndex2, c2) := rawWeeks ent receiptsPerWeek rest grnIndex c
    (rows ++ rows2, grnIndex2, c2)

/-- generate_raw_materials_data(start_date, end_date, receipts_per_week=5). -/
def generate_raw_materials_data (ent : Entropy) (startDate endDate : Date)
    (receiptsPerWeek : ℕ) (_c0 : Counters) : List RawRow × Counters :=
  let c := Counters.zero
  let weeks := strideDates startDate 7 (strideCount startDate endDate 7)
  let (rows, _, c) := rawWeeks ent receiptsPerWeek weeks 1 c
  (rows, c)

/-! ## Batch release generator (generate_batch_release_data) -/

structure BRRow where
  batch_id : String
  product_name : String
  product_code : String
  manufacturing_date : Date
  qp_id : String
  qp_name : String
  review_start_date : Date
  qc_complete_date : Date
  release_date : Option Date
  disposition : String
  days_to_release : Option ℤ
  has_deviation : String
  has_oos : String
  yield_percent : ℚ
  market_destination : String
  batch_size_kg : ℚ
deriving DecidableEq, Inhabited

/-- The body executed for a manufacturing row whose QC lookup succeeded. -/
def brBody (ent : Entropy) (m : MfgRow) (q : QCRow) (c : Counters) :
    BRRow × Counters :=
  let mfgDate := m.manufacturing_date
  let qcDate := q.test_date
  let qcResult := q.overall_result
  -- Review dates
  let (d1, c) := pyRandint ent c 1 3
  let reviewStart := addDays qcDate d1.toNat
  let (d2, c) := pyRandint ent c 1 2
  let qcComplete := addDays reviewStart d2.toNat
  -- Release decision
  let hasDeviation := m.has_deviation = "Yes"
  let hasOos := qcResult = "Fail"
  let (disposition, c) :=
    if hasOos then
      pyChoicesW ent c ["Rejected", "Released with deviation"] [7/10, 3/10]
    else if hasDeviation then
      pyChoicesW ent c ["Released", "Released with deviation"] [4/5, 1/5]
    else ("Released", c)
  let (releaseDate, daysToRelease, c) :=
    if disposition ≠ "Rejected" then
      let (d3, c) := pyRandint ent c 1 5
      let rel := addDays qcComplete d3.toNat
      (some rel, some ((rataDie rel : ℤ) - (rataDie mfgDate : ℤ)), c)
    else (none, none, c)
  -- QP assignment
  let (qp, c) := pyChoice ent c QP_LIST
  let (qpName, c) := fakeName ent c
  -- Market destination
  let (market, c) := pyChoice ent c MARKETS
  (⟨m.batch_id, m.product_name, m.product_code, mfgDate, qp, qpName,
    reviewStart, qcComplete, releaseDate, disposition, daysToRelease,
    m.has_deviation, (if hasOos then "Yes" else "No"), m.yield_percent,
    market, m.batch_size_kg⟩, c)

/-- The per-batch loop of generate_batch_release_data: batches with no
matching QC row are skipped silently (continue), consuming no draws. -/
def brLoop (ent : Entropy) (qc : List QCRow) :
    List MfgRow → Counters → List BRRow × Counters
  | [], c => ([], c)
  | m :: rest, c =>
    match qc.filter (fun q => q.batch_id = m.batch_id) with
    | [] => brLoop ent qc rest c
    | q :: _ =>
      let (row, c) := brBody ent m q c
      let (rows2, c2) := brLoop ent qc rest c
      (row :: rows2, c2)

/-- generate_batch_release_data(manufacturing_df, qc_df). -/
def generate_batch_release_data (ent : Entropy) (manufacturing : List MfgRow)
    (qc : List QCRow) (_c0 : Counters) : List BRRow × Counters :=
  let c := Counters.zero
  brLoop ent qc manufacturing c

/-! ## Orchestrator (generate_all_data) -/

/-- The dictionary of tables returned by generate_all_data. -/
structure AllData where
  manufacturing : List MfgRow
  qc : List QCRow
  complaints : List ComplaintRow
  capa : List CapaRow
  environmental : List EnvRow
  equipment : List EquipRow
  stability : List StabRow
  raw_materials : List RawRow
  batch_release : List BRRow
deriving DecidableEq, Inhabited

/-- generate_all_data(start_date, end_date, batches_per_day=20): runs the
nine generators in dependency order, each of which begins by resetting the
shared random state from the fixed seed.  now models the wall-clock
datetime.now() reads of the complaints and CAPA generators. -/
def generate_all_data (ent : Entropy) (startDate endDate : Date)
    (batchesPerDay : ℕ) (now : Date) (c : Counters) : AllData × Counters :=
  let (manufacturing, c) := generate_manufacturing_data ent startDate endDate batchesPerDay 0 c
  let (qc, c) := generate_qc_data ent manufacturing c
  let (complaints, c) := generate_complaints_data ent manufacturing (8/1000) now c
  let (capa, c) := generate_capa_data ent startDate endDate 10 now c
  let (environmental, c) := generate_environmental_data ent startDate endDate 3 c
  let (equipment, c) := generate_equipment_data ent startDate endDate c
  let (stability, c) := generate_stability_data ent manufacturing 3 c
  let (rawMaterials, c) := generate_raw_materials_data ent startDate endDate 5 c
  let (batchRelease, c) := generate_batch_release_data ent manufacturing qc c
  (⟨manufacturing, qc, complaints, capa, environmental, equipment, stability,
    rawMaterials, batchRelease⟩, c)

/-! ## Claims about the scenario table -/

/-- C1 counterexample: 15 September 2025 lies inside the claimed
Aug-Dec 2025 window, yet the scenario function returns the neutral
adjustments there - the supplier-adjustment branch of the code covers
November and December 2025 only, and the August label also differs from the
claimed one. -/
theorem claim_C1_counterexample :
    (scenarioAdjustments ⟨2025, 9, 15⟩ none).yield_modifier ≠ -1.0 ∧
    (scenarioAdjustments ⟨2025, 9, 15⟩ none).capa_rate_modifier ≠ 1.3 ∧
    (scenarioAdjustments ⟨2025, 9, 15⟩ none).scenario_description ≠
      some "New API supplier adjustment" := by
  refine ⟨by norm_num [scenarioAdjustments], by norm_num [scenarioAdjustments],
    by simp [scenarioAdjustments]⟩

/-- C1 amended: the supplier adjustment (yield -1.0, capa-rate 1.3, label
"New API supplier adjustment") holds for every date of November-December
2025 and any equipment; for 1-15 August 2025 on Press-B only the Press-B
window applies: hardness +1.5 and dissolution -8.0 with yield and capa-rate
unchanged, under the August label. -/
theorem claim_C1 :
    (∀ (d : Date) (e : Option String), d.year = 2025 →
      (d.month = 11 ∨ d.month = 12) →
      scenarioAdjustments d e =
        ⟨-1.0, 0, 0, 1.0, 1.3, some "New API supplier adjustment"⟩) ∧
    (∀ d : Date, d.year = 2025 → d.month = 8 → d.day ≤ 15 →
      scenarioAdjustments d (some "Press-B") =
        ⟨0, 1.5, -8.0, 1.0, 1.0, some "Press-B drift & new API supplier"⟩) := by
  constructor
  · rintro ⟨y, mo, dd⟩ e hy hm
    simp only at hy hm
    subst hy
    rcases hm with h | h <;> subst h <;> simp [scenarioAdjustments]
  · rintro ⟨y, mo, dd⟩ hy hm hd
    simp only at hy hm hd
    subst hy; subst hm
    simp [scenarioAdjustments, hd]

/-- C1 witness: the amended statement evaluated on 5 November 2025 (any
equipment) and on 10 August 2025 with Press-B. -/
theorem claim_C1_witness :
    scenarioAdjustments ⟨2025, 11, 5⟩ none =
      ⟨-1.0, 0, 0, 1.0, 1.3, some "New API supplier adjustment"⟩ ∧
    scenarioAdjustments ⟨2025, 8, 10⟩ (some "Press-B") =
      ⟨0, 1.5, -8.0, 1.0, 1.0, some "Press-B drift & new API supplier"⟩ :=
  ⟨claim_C1.1 ⟨2025, 11, 5⟩ none rfl (Or.inl rfl),
   claim_C1.2 ⟨2025, 8, 10⟩ rfl rfl (by decide)⟩

/-- C7: for every date of September-November 2021 on Press-A the hardness
modifier equals min(0.05 x days since 1 September 2021, 2.0) - days being
the datetime subtraction, embedded as the rataDie difference - and is
therefore monotone in the date over the window and never exceeds 2.0. -/
theorem claim_C7 :
    (∀ d : Date, d.year = 2021 → d.month ∈ ([9, 10, 11] : List ℕ) →
      (scenarioAdjustments d (some "Press-A")).hardness_modifier
        = min ((((rataDie d : ℤ) - (rataDie ⟨2021, 9, 1⟩ : ℤ)) : ℚ) * 0.05) 2.0) ∧
    (∀ d : Date, d.year = 2021 → d.month ∈ ([9, 10, 11] : List ℕ) →
      (scenarioAdjustments d (some "Press-A")).hardness_modifier ≤ 2.0) ∧
    (∀ d₁ d₂ : Date, d₁.year = 2021 → d₁.month ∈ ([9, 10, 11] : List ℕ) →
      d₂.year = 2021 → d₂.month ∈ ([9, 10, 11] : List ℕ) →
      rataDie d₁ ≤ rataDie d₂ →
      (scenarioAdjustments d₁ (some "Press-A")).hardness_modifier ≤
        (scenarioAdjustments d₂ (some "Press-A")).hardness_modifier) := by
  have key : ∀ d : Date, d.year = 2021 → d.month ∈ ([9, 10, 11] : List ℕ) →
      (scenarioAdjustments d (some "Press-A")).hardness_modifier
        = min ((((rataDie d : ℤ) - (rataDie ⟨2021, 9, 1⟩ : ℤ)) : ℚ) * 0.05) 2.0 := by
    rintro ⟨y, mo, dd⟩ hy hm
    simp only at hy
    subst hy
    simp only [List.mem_cons, List.not_mem_nil, or_false] at hm
    rcases hm with h | h | h <;> subst h <;> simp [scenarioAdjustments]
  refine ⟨key, ?_, ?_⟩
  · intro d hy hm
    rw [key d hy hm]
    exact min_le_right _ _
  · intro d₁ d₂ hy₁ hm₁ hy₂ hm₂ hle
    rw [key d₁ hy₁ hm₁, key d₂ hy₂ hm₂]
    refine min_le_min (mul_le_mul_of_nonneg_right ?_ (by norm_num)) le_rfl
    have h2 : (rataDie d₁ : ℚ) ≤ (rataDie d₂ : ℚ) := by exact_mod_cast hle
    push_cast
    linarith

/-- C7 witness: the three parts evaluated on 11 September 2021 and
21 September 2021. -/
theorem claim_C7_witness :
    (scenarioAdjustments ⟨2021, 9, 11⟩ (some "Press-A")).hardness_modifier
      = min ((((rataDie ⟨2021, 9, 11⟩ : ℤ) - (rataDie ⟨2021, 9, 1⟩ : ℤ)) : ℚ) * 0.05) 2.0 ∧
    (scenarioAdjustments ⟨2021, 9, 11⟩ (some "Press-A")).hardness_modifier ≤ 2.0 ∧
    (scenarioAdjustments ⟨2021, 9, 11⟩ (some "Press-A")).hardness_modifier ≤
      (scenarioAdjustments ⟨2021, 9, 21⟩ (some "Press-A")).hardness_modifier :=
  ⟨claim_C7.1 ⟨2021, 9, 11⟩ rfl (by decide),
   claim_C7.2.1 ⟨2021, 9, 11⟩ rfl (by decide),
   claim_C7.2.2 ⟨2021, 9, 11⟩ ⟨2021, 9, 21⟩ rfl (by decide) rfl (by decide)
     (by decide)⟩

/-! ## Claims about the QC generator -/

/-- A sub-result field is the string "Pass" exactly when its condition
holds. -/
theorem passFail_eq_pass_iff (p : Prop) [Decidable p] :
    ((if p then "Pass" else "Fail") = ("Pass" : String)) ↔ p := by
  by_cases h : p <;> simp [h]

/-- The head of a nonempty list is a member. -/
theorem headD_mem {α : Type} [Inhabited α] {l : List α} (h : l ≠ []) :
    l.headD default ∈ l := by
  cases l with
  | nil => exact absurd rfl h
  | cons a t => exact List.mem_cons_self a t

/-- Unfolding equation of the QC per-batch loop. -/
theorem qcRows_cons (ent : Entropy) (m : MfgRow) (rest : List MfgRow)
    (c : Counters) :
    (qcRows ent (m :: rest) c).1
      = (qcRow ent m c).1 :: (qcRows ent rest (qcRow ent m c).2).1 := rfl

/-- Every row of the QC loop output is the image of some input row at some
counter state. -/
theorem qcRows_mem_exists (ent : Entropy) :
    ∀ (l : List MfgRow) (c : Counters) (r : QCRow),
      r ∈ (qcRows ent l c).1 → ∃ m c', m ∈ l ∧ r = (qcRow ent m c').1 := by
  intro l
  induction l with
  | nil => intro c r h; simp [qcRows] at h
  | cons m rest ih =>
    intro c r h
    rw [qcRows_cons] at h
    rcases List.mem_cons.mp h with h | h
    · exact ⟨m, c, List.mem_cons_self m rest, h⟩
    · obtain ⟨m', c', hm', hr⟩ := ih (qcRow ent m c).2 r h
      exact ⟨m', c', List.mem_cons_of_mem m hm', hr⟩

set_option maxHeartbeats 2000000 in
/-- The stored dissolution aggregates of one QC row: the mean field is the
rounded mean of the six vessel fields, the min field is their exact
minimum. -/
theorem qcRow_dissolution_fields (ent : Entropy) (m : MfgRow) (c : Counters) :
    (qcRow ent m c).1.dissolution_mean
      = pyRound (npMean
          [(qcRow ent m c).1.dissolution_vessel_1,
           (qcRow ent m c).1.dissolution_vessel_2,
           (qcRow ent m c).1.dissolution_vessel_3,
           (qcRow ent m c).1.dissolution_vessel_4,
           (qcRow ent m c).1.dissolution_vessel_5,
           (qcRow ent m c).1.dissolution_vessel_6]) 1
    ∧ (qcRow ent m c).1.dissolution_min
        = listMin
          [(qcRow ent m c).1.dissolution_vessel_1,
           (qcRow ent m c).1.dissolution_vessel_2,
           (qcRow ent m c).1.dissolution_vessel_3,
           (qcRow ent m c).1.dissolution_vessel_4,
           (qcRow ent m c).1.dissolution_vessel_5,
           (qcRow ent m c).1.dissolution_vessel_6] :=
  ⟨rfl, rfl⟩


set_option maxHeartbeats 4000000 in
/-- The overall result of one QC row is "Pass" exactly when all the
sub-conditions hold over the stored fields. -/
theorem qcRow_overall_iff (ent : Entropy) (m : MfgRow) (c : Counters) :
    ((qcRow ent m c).1.overall_result = "Pass"
      ↔ ((95.0 ≤ (qcRow ent m c).1.assay_percent ∧
            (qcRow ent m c).1.assay_percent ≤ 105.0) ∧
         (qcRow ent m c).1.dissolution_min ≥ 75.0 ∧
         (qcRow ent m c).1.cu_acceptance_value ≤ 15.0 ∧
         (qcRow ent m c).1.total_impurities_pct ≤ 1.0 ∧
         ((qcRow ent m c).1.tamc_cfu_g < 1000 ∧ (qcRow ent m c).1.tymc_cfu_g < 100) ∧
         (qcRow ent m c).1.friability_pct < 1.0 ∧
         (qcRow ent m c).1.disintegration_max_min < 15)) := by
  show ((if _ then "Pass" else "Fail") = "Pass") ↔ _
  rw [passFail_eq_pass_iff, passFail_eq_pass_iff, passFail_eq_pass_iff,
    passFail_eq_pass_iff, passFail_eq_pass_iff, passFail_eq_pass_iff]
  rfl

/-- C2 counterexample: an entropy assignment making the six vessels
92, 92, 92, 92, 92, 93: the stored dissolution_mean (rounded to one
decimal) is 92.2, while the exact arithmetic mean of the stored vessel
values is 553/6 = 92.1666... -/
def entC2 : Entropy := ⟨fun i => if i = 7 then 1/3 else 0, fun _ => 0, fun _ => 0⟩

/-- A well-formed manufacturing row used as concrete generator input. -/
def mfgSample : MfgRow :=
  { (default : MfgRow) with
    batch_id := "PARA-22-00001",
    product_name := "Paracetamol 500mg Tablets",
    product_code := "PARA-500-TAB",
    manufacturing_date := ⟨2022, 1, 10⟩,
    tablet_press_id := "Press-A",
    has_deviation := "No" }

set_option maxHeartbeats 2000000 in
/-- C2 is false as stated: on a concrete run the stored dissolution_mean
differs from the exact arithmetic mean of the six stored vessel values
(the code rounds the mean to one decimal before storing it). -/
theorem claim_C2_counterexample :
    ((generate_qc_data entC2 [mfgSample] Counters.zero).1.headD default).dissolution_mean
      ≠ npMean
        [((generate_qc_data entC2 [mfgSample] Counters.zero).1.headD default).dissolution_vessel_1,
         ((generate_qc_data entC2 [mfgSample] Counters.zero).1.headD default).dissolution_vessel_2,
         ((generate_qc_data entC2 [mfgSample] Counters.zero).1.headD default).dissolution_vessel_3,
         ((generate_qc_data entC2 [mfgSample] Counters.zero).1.headD default).dissolution_vessel_4,
         ((generate_qc_data entC2 [mfgSample] Counters.zero).1.headD default).dissolution_vessel_5,
         ((generate_qc_data entC2 [mfgSample] Counters.zero).1.headD default).dissolution_vessel_6] := by
  with_unfolding_all decide

/-- C2 amended: for every row produced by the QC generator the stored
dissolution_mean equals the arithmetic mean of the six stored vessel values
rounded to one decimal (round-half-even), and the stored dissolution_min
equals their minimum exactly. -/
theorem claim_C2 :
    ∀ (ent : Entropy) (manufacturing : List MfgRow) (c : Counters),
      ∀ r ∈ (generate_qc_data ent manufacturing c).1,
        r.dissolution_mean
          = pyRound (npMean
              [r.dissolution_vessel_1, r.dissolution_vessel_2,
               r.dissolution_vessel_3, r.dissolution_vessel_4,
               r.dissolution_vessel_5, r.dissolution_vessel_6]) 1
        ∧ r.dissolution_min
            = listMin
              [r.dissolution_vessel_1, r.dissolution_vessel_2,
               r.dissolution_vessel_3, r.dissolution_vessel_4,
               r.dissolution_vessel_5, r.dissolution_vessel_6] := by
  intro ent manufacturing c r hr
  obtain ⟨m, c', _, rfl⟩ := qcRows_mem_exists ent manufacturing Counters.zero r hr
  exact qcRow_dissolution_fields ent m c'

/-- C2 witness: the amended statement evaluated at a concrete run. -/
theorem claim_C2_witness :
    ((generate_qc_data entC2 [mfgSample] Counters.zero).1.headD default).dissolution_mean
      = pyRound (npMean
          [((generate_qc_data entC2 [mfgSample] Counters.zero).1.headD default).dissolution_vessel_1,
           ((generate_qc_data entC2 [mfgSample] Counters.zero).1.headD default).dissolution_vessel_2,
           ((generate_qc_data entC2 [mfgSample] Counters.zero).1.headD default).dissolution_vessel_3,
           ((generate_qc_data entC2 [mfgSample] Counters.zero).1.headD default).dissolution_vessel_4,
           ((generate_qc_data entC2 [mfgSample] Counters.zero).1.headD default).dissolution_vessel_5,
           ((generate_qc_data entC2 [mfgSample] Counters.zero).1.headD default).dissolution_vessel_6]) 1 :=
  (claim_C2 entC2 [mfgSample] Counters.zero _
    (headD_mem (by decide))).1

/-- C3: for every row produced by the QC generator, overall_result is
"Pass" exactly when assay is within [95, 105], the minimum vessel is at
least 75, the content-uniformity acceptance value is at most 15, total
impurities are at most 1.0, TAMC is under 1000 and TYMC under 100,
friability is under 1.0 and disintegration under 15 - simultaneously. -/
theorem claim_C3 :
    ∀ (ent : Entropy) (manufacturing : List MfgRow) (c : Counters),
      ∀ r ∈ (generate_qc_data ent manufacturing c).1,
        (r.overall_result = "Pass"
          ↔ ((95.0 ≤ r.assay_percent ∧ r.assay_percent ≤ 105.0) ∧
             r.dissolution_min ≥ 75.0 ∧
             r.cu_acceptance_value ≤ 15.0 ∧
             r.total_impurities_pct ≤ 1.0 ∧
             (r.tamc_cfu_g < 1000 ∧ r.tymc_cfu_g < 100) ∧
             r.friability_pct < 1.0 ∧
             r.disintegration_max_min < 15)) := by
  intro ent manufacturing c r hr
  obtain ⟨m, c', _, rfl⟩ := qcRows_mem_exists ent manufacturing Counters.zero r hr
  exact qcRow_overall_iff ent m c'

/-- An all-zero entropy assignment used as concrete generator input. -/
def entZero : Entropy := ⟨fun _ => 0, fun _ => 0, fun _ => 0⟩

/-- C3 witness: the equivalence evaluated at a concrete run (where the row
passes all sub-tests and overall_result is "Pass"). -/
theorem claim_C3_witness :
    (((generate_qc_data entZero [mfgSample] Counters.zero).1.headD default).overall_result
      = "Pass"
      ↔ ((95.0 ≤ ((generate_qc_data entZero [mfgSample] Counters.zero).1.headD default).assay_percent ∧
            ((generate_qc_data entZero [mfgSample] Counters.zero).1.headD default).assay_percent ≤ 105.0) ∧
         ((generate_qc_data entZero [mfgSample] Counters.zero).1.headD default).dissolution_min ≥ 75.0 ∧
         ((generate_qc_data entZero [mfgSample] Counters.zero).1.headD default).cu_acceptance_value ≤ 15.0 ∧
         ((generate_qc_data entZero [mfgSample] Counters.zero).1.headD default).total_impurities_pct ≤ 1.0 ∧
         (((generate_qc_data entZero [mfgSample] Counters.zero).1.headD default).tamc_cfu_g < 1000 ∧
           ((generate_qc_data entZero [mfgSample] Counters.zero).1.headD default).tymc_cfu_g < 100) ∧
         ((generate_qc_data entZero [mfgSample] Counters.zero).1.headD default).friability_pct < 1.0 ∧
         ((generate_qc_data entZero [mfgSample] Counters.zero).1.headD default).disintegration_max_min < 15)) :=
  claim_C3 entZero [mfgSample] Counters.zero _ (headD_mem (by decide))

/-! ## Claims about the Manufacturing generator -/

/-- Numeric value of a decimal digit character. -/
def charDigit (ch : Char) : ℕ := ch.toNat - 48

/-- Decode a zero-padded decimal digit string back to its number. -/
def decodePad (l : List Char) : ℕ :=
  Nat.ofDigits 10 ((l.map charDigit).reverse)

theorem charDigit_digitChar : ∀ d, d < 10 → charDigit (Char.ofNat (48 + d)) = d := by
  decide

theorem ofDigits_replicate_zero (k : ℕ) :
    Nat.ofDigits 10 (List.replicate k 0) = 0 := by
  induction k with
  | zero => simp [Nat.ofDigits]
  | succ k ih => simp [List.replicate_succ, Nat.ofDigits_cons, ih]

/-- Zero-padding then decoding is the identity: the padded decimal rendering
is injective. -/
theorem decodePad_padChars (w n : ℕ) : decodePad (padChars w n) = n := by
  unfold decodePad padChars decChars
  have hmap : (((Nat.digits 10 n).reverse.map (fun d => Char.ofNat (48 + d))).map charDigit)
      = (Nat.digits 10 n).reverse := by
    rw [List.map_map]
    refine (List.map_congr_left ?_).trans (List.map_id _)
    intro d hd
    exact charDigit_digitChar d
      (Nat.digits_lt_base (by norm_num) (List.mem_reverse.mp hd))
  rw [List.map_append, List.map_replicate]
  have h0 : charDigit '0' = 0 := rfl
  rw [h0, hmap, List.reverse_append, List.reverse_reverse, List.reverse_replicate,
    Nat.ofDigits_append, Nat.ofDigits_digits, ofDigits_replicate_zero]
  simp

theorem digits_len_le_of_lt_pow {m w : ℕ} (h : m < 10 ^ w) :
    (Nat.digits 10 m).length ≤ w := by
  by_cases hm : m = 0
  · simp [hm]
  · by_contra hlt
    push_neg at hlt
    have h1 : (10 : ℕ) ^ (Nat.digits 10 m).length ≤ 10 * m :=
      Nat.base_pow_length_digits_le 10 m (by norm_num) hm
    have h2 : 10 * m < 10 ^ (w + 1) := by
      rw [pow_succ]
      omega
    have h3 : (10 : ℕ) ^ (w + 1) ≤ 10 ^ (Nat.digits 10 m).length :=
      Nat.pow_le_pow_right (by norm_num) hlt
    omega

theorem padChars_length_of_lt {w n : ℕ} (h : n < 10 ^ w) :
    (padChars w n).length = w := by
  have hlen : (decChars n).length = (Nat.digits 10 n).length := by
    simp [decChars]
  have hle : (decChars n).length ≤ w := by
    rw [hlen]; exact digits_len_le_of_lt_pow h
  simp only [padChars, List.length_append, List.length_replicate]
  omega

/-- The sequence number is recoverable from a batch id, hence two batch ids
with the same product prefix and different sequence numbers differ. -/
theorem mkBatchId_inj {p : String} {y₁ y₂ a b : ℕ}
    (h : mkBatchId p y₁ a = mkBatchId p y₂ b) : a = b := by
  have hd := congrArg String.data h
  simp only [mkBatchId, padNum, String.data_append, List.append_assoc] at hd
  have hd2 := List.append_cancel_left hd
  simp only [List.singleton_append, List.cons.injEq, true_and] at hd2
  have hlen : (padChars 2 (y₁ % 100)).length = (padChars 2 (y₂ % 100)).length := by
    rw [padChars_length_of_lt (by exact Nat.mod_lt _ (by norm_num)),
      padChars_length_of_lt (by exact Nat.mod_lt _ (by norm_num))]
  obtain ⟨-, h5⟩ := List.append_inj hd2 hlen
  simp only [List.cons.injEq, true_and] at h5
  have := congrArg decodePad h5
  rwa [decodePad_padChars, decodePad_padChars] at this

/-- The identifying fields of one manufacturing row: the batch id rendered
from the global sequence number, the manufacturing date, and the clamped
yield. -/
theorem mfgBatch_fields (ent : Entropy) (p : Product) (day : Date)
    (bi : ℕ) (c : Counters) :
    (mfgBatch ent p day bi c).1.batch_id = mkBatchId p.batchPrefix day.year bi ∧
    (mfgBatch ent p day bi c).1.manufacturing_date = day ∧
    ∃ x, (mfgBatch ent p day bi c).1.yield_percent = max 90.0 (min 100.0 x) :=
  ⟨rfl, rfl, ⟨_, rfl⟩⟩

/-- Unfolding equation of the per-day batch loop. -/
theorem mfgBatches_succ (ent : Entropy) (p : Product) (day : Date)
    (n bi : ℕ) (c : Counters) :
    mfgBatches ent p day (n + 1) bi c =
      ((mfgBatch ent p day bi c).1 ::
          (mfgBatches ent p day n (bi + 1) (mfgBatch ent p day bi c).2).1,
        (mfgBatches ent p day n (bi + 1) (mfgBatch ent p day bi c).2).2) := rfl

/-- Length, final index and per-position description of the per-day batch
loop: position i carries global sequence number bi + i. -/
theorem mfgBatches_spec (ent : Entropy) (p : Product) (day : Date) :
    ∀ (n bi : ℕ) (c : Counters),
      (mfgBatches ent p day n bi c).1.length = n ∧
      (mfgBatches ent p day n bi c).2.1 = bi + n ∧
      ∀ i r, (mfgBatches ent p day n bi c).1.get? i = some r →
        ∃ c', r = (mfgBatch ent p day (bi + i) c').1 := by
  intro n
  induction n with
  | zero =>
    intro bi c
    exact ⟨rfl, rfl, fun i r h => by simp [mfgBatches] at h⟩
  | succ n ih =>
    intro bi c
    rw [mfgBatches_succ]
    refine ⟨by simp [(ih (bi + 1) (mfgBatch ent p day bi c).2).1], ?_, ?_⟩
    · have h2 := (ih (bi + 1) (mfgBatch ent p day bi c).2).2.1
      simp only [h2]
      omega
    · intro i r h
      cases i with
      | zero =>
        simp only [List.get?] at h
        exact ⟨c, by simpa using h.symm⟩
      | succ i =>
        simp only [List.get?] at h
        obtain ⟨c', hc'⟩ := (ih (bi + 1) (mfgBatch ent p day bi c).2).2.2 i r h
        exact ⟨c', by rwa [show bi + 1 + i = bi + (i + 1) by omega] at hc'⟩

/-- Unfolding equation of the daily loop. -/
theorem mfgDays_cons (ent : Entropy) (p : Product) (bpd : ℕ) (day : Date)
    (rest : List Date) (bi : ℕ) (c : Counters) :
    mfgDays ent p bpd (day :: rest) bi c =
      ((mfgBatches ent p day (dailyBatchCount ent day bpd c).1 bi
          (dailyBatchCount ent day bpd c).2).1
        ++ (mfgDays ent p bpd rest
              (mfgBatches ent p day (dailyBatchCount ent day bpd c).1 bi
                (dailyBatchCount ent day bpd c).2).2.1
              (mfgBatches ent p day (dailyBatchCount ent day bpd c).1 bi
                (dailyBatchCount ent day bpd c).2).2.2).1,
        (mfgDays ent p bpd rest
          (mfgBatches ent p day (dailyBatchCount ent day bpd c).1 bi
            (dailyBatchCount ent day bpd c).2).2.1
          (mfgBatches ent p day (dailyBatchCount ent day bpd c).1 bi
            (dailyBatchCount ent day bpd c).2).2.2).2) := rfl

/-- Per-position description of the whole daily loop: position i carries
global sequence number bi + i, for a batch of one of the visited days. -/
theorem mfgDays_spec (ent : Entropy) (p : Product) (bpd : ℕ) :
    ∀ (ds : List Date) (bi : ℕ) (c : Counters),
      ∀ i r, (mfgDays ent p bpd ds bi c).1.get? i = some r →
        ∃ d c', r = (mfgBatch ent p d (bi + i) c').1 := by
  intro ds
  induction ds with
  | nil => intro bi c i r h; simp [mfgDays] at h
  | cons day rest ih =>
    intro bi c i r h
    rw [mfgDays_cons] at h
    set D := (dailyBatchCount ent day bpd c).1 with hD
    set cD := (dailyBatchCount ent day bpd c).2 with hcD
    have hspec := mfgBatches_spec ent p day D bi cD
    by_cases hi : i < (mfgBatches ent p day D bi cD).1.length
    · rw [List.get?_append hi] at h
      obtain ⟨c', hc'⟩ := hspec.2.2 i r h
      exact ⟨day, c', hc'⟩
    · push_neg at hi
      rw [List.get?_append_right hi] at h
      obtain ⟨d, c', hc'⟩ := ih _ _ _ _ h
      refine ⟨d, c', ?_⟩
      rw [hspec.2.1, hspec.1] at hc'
      have hDle : D ≤ i := by rw [← hspec.1]; exact hi
      rwa [show bi + D + (i - D) = bi + i by omega] at hc'

/-- C6: in one call of the Manufacturing generator, the row at position i
carries batch_id rendered from global sequence number i + 1 (start at 1,
step 1, global across days), and consequently all batch ids of the call are
distinct. -/
theorem claim_C6 :
    ∀ (ent : Entropy) (s e : Date) (bpd pidx : ℕ) (c : Counters),
      (∀ i r, (generate_manufacturing_data ent s e bpd pidx c).1.get? i = some r →
        r.batch_id = mkBatchId (PRODUCTS.getD pidx default).batchPrefix
          r.manufacturing_date.year (i + 1)) ∧
      ((generate_manufacturing_data ent s e bpd pidx c).1.map MfgRow.batch_id).Nodup := by
  intro ent s e bpd pidx c
  have key : ∀ i r, (generate_manufacturing_data ent s e bpd pidx c).1.get? i = some r →
      r.batch_id = mkBatchId (PRODUCTS.getD pidx default).batchPrefix
        r.manufacturing_date.year (i + 1) := by
    intro i r h
    obtain ⟨d, c', hc'⟩ := mfgDays_spec ent (PRODUCTS.getD pidx default) bpd
      (dateRange s (numDaysInclusive s e)) 1 Counters.zero i r h
    subst hc'
    obtain ⟨hid, hdate, -⟩ := mfgBatch_fields ent (PRODUCTS.getD pidx default) d (1 + i) c'
    rw [hid, hdate, Nat.add_comm 1 i]
  refine ⟨key, ?_⟩
  rw [List.nodup_iff_injective_get]
  rintro ⟨i, hi⟩ ⟨j, hj⟩ hij
  rw [List.get_map, List.get_map] at hij
  have hi' := hi; have hj' := hj
  rw [List.length_map] at hi' hj'
  have h1 := key i _ (List.get?_eq_get hi')
  have h2 := key j _ (List.get?_eq_get hj')
  rw [h1, h2] at hij
  have := mkBatchId_inj hij
  apply Fin.ext
  show i = j
  omega

/-- C6 witness: a one-day one-batch run; its single row carries sequence
number 1, and the batch-id list is duplicate-free. -/
theorem claim_C6_witness :
    ((generate_manufacturing_data entZero ⟨2021, 3, 1⟩ ⟨2021, 3, 1⟩ 1 0
        Counters.zero).1.map MfgRow.batch_id).Nodup ∧
    ∀ r, (generate_manufacturing_data entZero ⟨2021, 3, 1⟩ ⟨2021, 3, 1⟩ 1 0
        Counters.zero).1.get? 0 = some r →
      r.batch_id = mkBatchId "PARA" r.manufacturing_date.year 1 :=
  ⟨(claim_C6 entZero ⟨2021, 3, 1⟩ ⟨2021, 3, 1⟩ 1 0 Counters.zero).2,
   fun r h =>
    (claim_C6 entZero ⟨2021, 3, 1⟩ ⟨2021, 3, 1⟩ 1 0 Counters.zero).1 0 r h⟩

/-- The clamp of the yield percentage keeps it inside [90, 100]. -/
theorem clamp_yield_bounds (x : ℚ) :
    90 ≤ max 90.0 (min 100.0 x) ∧ max 90.0 (min 100.0 x) ≤ 100 := by
  constructor
  · exact le_trans (by norm_num) (le_max_left _ _)
  · exact max_le (by norm_num) (le_trans (min_le_left _ _) (by norm_num))

/-- C8: every row produced by the Manufacturing generator has yield_percent
inside the closed interval [90, 100], regardless of scenario modifier and
draws. -/
theorem claim_C8 :
    ∀ (ent : Entropy) (s e : Date) (bpd pidx : ℕ) (c : Counters),
      ∀ r ∈ (generate_manufacturing_data ent s e bpd pidx c).1,
        90 ≤ r.yield_percent ∧ r.yield_percent ≤ 100 := by
  intro ent s e bpd pidx c r hr
  obtain ⟨⟨i, hi⟩, rfl⟩ := List.mem_iff_get.mp hr
  obtain ⟨d, c', hc'⟩ := mfgDays_spec ent (PRODUCTS.getD pidx default) bpd
    (dateRange s (numDaysInclusive s e)) 1 Counters.zero i _ (List.get?_eq_get hi)
  rw [hc']
  obtain ⟨-, -, x, hx⟩ := mfgBatch_fields ent (PRODUCTS.getD pidx default) d (1 + i) c'
  rw [hx]
  exact clamp_yield_bounds x

/-- C8 witness: the bound evaluated on the row of a concrete one-day
one-batch run. -/
theorem claim_C8_witness :
    90 ≤ ((generate_manufacturing_data entZero ⟨2021, 3, 1⟩ ⟨2021, 3, 1⟩ 1 0
        Counters.zero).1.headD default).yield_percent ∧
    ((generate_manufacturing_data entZero ⟨2021, 3, 1⟩ ⟨2021, 3, 1⟩ 1 0
        Counters.zero).1.headD default).yield_percent ≤ 100 :=
  claim_C8 entZero ⟨2021, 3, 1⟩ ⟨2021, 3, 1⟩ 1 0 Counters.zero _
    (headD_mem (by decide))

/-! ## Claim C5: QC output is in 1:1 batch-id correspondence with its input -/

/-- Each QC row carries the batch id of the manufacturing row it was
generated from. -/
theorem qcRow_batch_id (ent : Entropy) (m : MfgRow) (c : Counters) :
    (qcRow ent m c).1.batch_id = m.batch_id := rfl

/-- The QC loop emits exactly one row per input row, preserving the batch-id
sequence. -/
theorem qcRows_map (ent : Entropy) :
    ∀ (l : List MfgRow) (c : Counters),
      (qcRows ent l c).1.map QCRow.batch_id = l.map MfgRow.batch_id := by
  intro l
  induction l with
  | nil => intro c; rfl
  | cons m rest ih =>
    intro c
    rw [qcRows_cons]
    simp only [List.map_cons, qcRow_batch_id, ih]

/-- C5 counterexample: the claim quantifies over every Manufacturing table;
on a degenerate table with a repeated batch_id the generated QC row has two
matching Manufacturing rows, not exactly one. -/
theorem claim_C5_counterexample :
    ((generate_qc_data entZero [mfgSample, mfgSample] Counters.zero).1.headD default)
      ∈ (generate_qc_data entZero [mfgSample, mfgSample] Counters.zero).1 ∧
    ([mfgSample, mfgSample].map MfgRow.batch_id).count
      ((generate_qc_data entZero [mfgSample, mfgSample] Counters.zero).1.headD
        default).batch_id ≠ 1 := by
  constructor
  · exact headD_mem (by decide)
  · have hb : ((generate_qc_data entZero [mfgSample, mfgSample]
        Counters.zero).1.headD default).batch_id = mfgSample.batch_id := rfl
    rw [hb]
    decide

/-- C5 amended: the QC generator emits exactly one row per input row with
the same batch_id (so the batch-id sequences coincide); when the input
batch ids are pairwise distinct - as the Manufacturing generator guarantees -
every QC row matches exactly one Manufacturing row and conversely. -/
theorem claim_C5 :
    ∀ (ent : Entropy) (mfg : List MfgRow) (c : Counters),
      ((generate_qc_data ent mfg c).1.map QCRow.batch_id
        = mfg.map MfgRow.batch_id) ∧
      ((mfg.map MfgRow.batch_id).Nodup →
        (∀ q ∈ (generate_qc_data ent mfg c).1,
          (mfg.map MfgRow.batch_id).count q.batch_id = 1) ∧
        (∀ m ∈ mfg,
          ((generate_qc_data ent mfg c).1.map QCRow.batch_id).count
            m.batch_id = 1)) := by
  intro ent mfg c
  have hmap : (generate_qc_data ent mfg c).1.map QCRow.batch_id
      = mfg.map MfgRow.batch_id := qcRows_map ent mfg Counters.zero
  refine ⟨hmap, fun hnd => ⟨?_, ?_⟩⟩
  · intro q hq
    have hqmem : q.batch_id ∈ mfg.map MfgRow.batch_id := by
      rw [← hmap]
      exact List.mem_map_of_mem QCRow.batch_id hq
    exact List.count_eq_one_of_mem hnd hqmem
  · intro m hm
    rw [hmap]
    exact List.count_eq_one_of_mem hnd (List.mem_map_of_mem MfgRow.batch_id hm)

/-- C5 witness: on a one-row table with distinct ids, the batch-id sequences
coincide and the QC head row matches exactly one Manufacturing row. -/
theorem claim_C5_witness :
    ((generate_qc_data entZero [mfgSample] Counters.zero).1.map QCRow.batch_id
      = [mfgSample].map MfgRow.batch_id) ∧
    ([mfgSample].map MfgRow.batch_id).count
      ((generate_qc_data entZero [mfgSample] Counters.zero).1.headD
        default).batch_id = 1 := by
  refine ⟨(claim_C5 entZero [mfgSample] Counters.zero).1, ?_⟩
  exact ((claim_C5 entZero [mfgSample] Counters.zero).2 (by decide)).1 _
    (headD_mem (by decide))

/-! ## Claims C9 and C10: the Batch Release generator -/

/-- Each batch release row carries the batch id of its manufacturing row. -/
theorem brBody_batch_id (ent : Entropy) (m : MfgRow) (q : QCRow) (c : Counters) :
    (brBody ent m q c).1.batch_id = m.batch_id := rfl

/-- The batch-id sequence of the Batch Release output: exactly the
manufacturing rows whose batch id resolves in the QC table, in order. -/
theorem brLoop_map (ent : Entropy) (qc : List QCRow) :
    ∀ (mfg : List MfgRow) (c : Counters),
      (brLoop ent qc mfg c).1.map BRRow.batch_id
        = (mfg.filter (fun m => m.batch_id ∈ qc.map QCRow.batch_id)).map
            MfgRow.batch_id := by
  intro mfg
  induction mfg with
  | nil => intro c; rfl
  | cons m rest ih =>
    intro c
    by_cases hmem : m.batch_id ∈ qc.map QCRow.batch_id
    · have hne : qc.filter (fun q => q.batch_id = m.batch_id) ≠ [] := by
        simp only [ne_eq, List.filter_eq_nil_iff]
        push_neg
        obtain ⟨q, hq, hqb⟩ := List.mem_map.mp hmem
        exact ⟨q, hq, by simp [hqb]⟩
      cases hf : qc.filter (fun q => q.batch_id = m.batch_id) with
      | nil => exact absurd hf hne
      | cons q qs =>
        simp only [brLoop, hf]
        rw [List.filter_cons_of_pos (by simpa using hmem)]
        simp only [List.map_cons, brBody_batch_id, ih]
    · have hf : qc.filter (fun q => q.batch_id = m.batch_id) = [] := by
        simp only [List.filter_eq_nil_iff]
        intro q hq hqb
        exact hmem (List.mem_map.mpr ⟨q, hq, by simpa using hqb⟩)
      simp only [brLoop, hf]
      rw [List.filter_cons_of_neg (by simpa using hmem)]
      exact ih c

/-- C9: a manufacturing batch whose batch_id has no row in the QC table
yields no Batch Release row and no error (the generator is a total function
and skips the record); the output ids are exactly those manufacturing rows
that do resolve, in order. -/
theorem claim_C9 :
    ∀ (ent : Entropy) (mfg : List MfgRow) (qc : List QCRow) (c : Counters),
      (∀ bid, bid ∉ qc.map QCRow.batch_id →
        (generate_batch_release_data ent mfg qc c).1.filter
          (fun r => r.batch_id = bid) = []) ∧
      ((generate_batch_release_data ent mfg qc c).1.map BRRow.batch_id
        = (mfg.filter (fun m => m.batch_id ∈ qc.map QCRow.batch_id)).map
            MfgRow.batch_id) := by
  intro ent mfg qc c
  have hmap : (generate_batch_release_data ent mfg qc c).1.map BRRow.batch_id
      = (mfg.filter (fun m => m.batch_id ∈ qc.map QCRow.batch_id)).map
          MfgRow.batch_id := brLoop_map ent qc mfg Counters.zero
  refine ⟨?_, hmap⟩
  intro bid hbid
  rw [List.filter_eq_nil_iff]
  intro r hr hrb
  have hrb' : r.batch_id = bid := by simpa using hrb
  have hmem : r.batch_id
      ∈ (generate_batch_release_data ent mfg qc c).1.map BRRow.batch_id :=
    List.mem_map_of_mem BRRow.batch_id hr
  rw [hmap] at hmem
  obtain ⟨m, hm, hmb⟩ := List.mem_map.mp hmem
  have hmmem := List.of_mem_filter hm
  apply hbid
  rw [← hrb', ← hmb]
  simpa using hmmem

/-- C9 witness: with an empty QC table the only manufacturing batch is
skipped and the output id sequence is empty. -/
theorem claim_C9_witness :
    ((generate_batch_release_data entZero [mfgSample] [] Counters.zero).1.filter
      (fun r => r.batch_id = "PARA-22-00001") = []) ∧
    ((generate_batch_release_data entZero [mfgSample] [] Counters.zero).1.map
        BRRow.batch_id
      = ([mfgSample].filter
          (fun m => m.batch_id ∈ ([] : List QCRow).map QCRow.batch_id)).map
          MfgRow.batch_id) :=
  ⟨(claim_C9 entZero [mfgSample] [] Counters.zero).1 "PARA-22-00001" (by decide),
   (claim_C9 entZero [mfgSample] [] Counters.zero).2⟩

/-- Shape of one batch release row: the release date and days-to-release
components are the pair filled inside the branch on the disposition. -/
theorem brBody_shape (ent : Entropy) (m : MfgRow) (q : QCRow) (c : Counters) :
    ∃ (qp qpName market : String) (reviewStart qcComplete : Date) (D : String)
      (rel : Date) (k : ℤ) (c₁ c₂ : Counters),
      (brBody ent m q c).1 =
        ⟨m.batch_id, m.product_name, m.product_code, m.manufacturing_date, qp,
         qpName, reviewStart, qcComplete,
         (if D ≠ "Rejected" then ((some rel : Option Date), (some k : Option ℤ), c₁)
          else (none, none, c₂)).1,
         D,
         (if D ≠ "Rejected" then ((some rel : Option Date), (some k : Option ℤ), c₁)
          else (none, none, c₂)).2.1,
         m.has_deviation, (if q.overall_result = "Fail" then "Yes" else "No"),
         m.yield_percent, market, m.batch_size_kg⟩ :=
  ⟨_, _, _, _, _, _, _, _, _, _, rfl⟩

/-- The release fields of one batch release row are populated exactly when
the disposition is not "Rejected". -/
theorem brBody_release_iff (ent : Entropy) (m : MfgRow) (q : QCRow) (c : Counters) :
    ((brBody ent m q c).1.disposition ≠ "Rejected"
      ↔ ((brBody ent m q c).1.release_date).isSome = true) ∧
    ((brBody ent m q c).1.disposition ≠ "Rejected"
      ↔ ((brBody ent m q c).1.days_to_release).isSome = true) := by
  obtain ⟨qp, qpName, market, rs, qcc, D, rel, k, c₁, c₂, hrow⟩ :=
    brBody_shape ent m q c
  rw [hrow]
  by_cases hD : D = "Rejected" <;> simp [hD]

/-- Every row of the Batch Release loop is the image of some inputs. -/
theorem brLoop_mem_exists (ent : Entropy) (qc : List QCRow) :
    ∀ (mfg : List MfgRow) (c : Counters) (r : BRRow),
      r ∈ (brLoop ent qc mfg c).1 →
        ∃ m q c', r = (brBody ent m q c').1 := by
  intro mfg
  induction mfg with
  | nil => intro c r h; simp [brLoop] at h
  | cons m rest ih =>
    intro c r h
    cases hf : qc.filter (fun q => q.batch_id = m.batch_id) with
    | nil =>
      simp only [brLoop, hf] at h
      exact ih c r h
    | cons q qs =>
      simp only [brLoop, hf] at h
      rcases List.mem_cons.mp h with h | h
      · exact ⟨m, q, c, h⟩
      · exact ih _ r h

/-- C10: in every row produced by the Batch Release generator, release_date
and days_to_release are populated exactly when the disposition differs from
"Rejected"; for "Rejected" both are empty. -/
theorem claim_C10 :
    ∀ (ent : Entropy) (mfg : List MfgRow) (qc : List QCRow) (c : Counters),
      ∀ r ∈ (generate_batch_release_data ent mfg qc c).1,
        (r.disposition ≠ "Rejected" ↔ (r.release_date).isSome = true) ∧
        (r.disposition ≠ "Rejected" ↔ (r.days_to_release).isSome = true) := by
  intro ent mfg qc c r hr
  obtain ⟨m, q, c', rfl⟩ := brLoop_mem_exists ent qc mfg Counters.zero r hr
  exact brBody_release_iff ent m q c'

/-- A QC row matching mfgSample, used as concrete generator input. -/
def qcSample : QCRow :=
  { (default : QCRow) with
    sample_id := "QC-PARA-22-00001",
    batch_id := "PARA-22-00001",
    test_date := ⟨2022, 1, 12⟩,
    overall_result := "Pass" }

/-- C10 witness: the equivalence evaluated on the row of a concrete run. -/
theorem claim_C10_witness :
    (((generate_batch_release_data entZero [mfgSample] [qcSample]
        Counters.zero).1.headD default).disposition ≠ "Rejected"
      ↔ (((generate_batch_release_data entZero [mfgSample] [qcSample]
          Counters.zero).1.headD default).release_date).isSome = true) ∧
    (((generate_batch_release_data entZero [mfgSample] [qcSample]
        Counters.zero).1.headD default).disposition ≠ "Rejected"
      ↔ (((generate_batch_release_data entZero [mfgSample] [qcSample]
          Counters.zero).1.headD default).days_to_release).isSome = true) :=
  claim_C10 entZero [mfgSample] [qcSample] Counters.zero _
    (headD_mem (by decide))

/-! ## Claim C4: determinism of the full generation entry point -/

/-- C4: for a fixed seed (hence fixed seed-determined streams) and a fixed
wall clock, two invocations of generate_all_data with identical start date,
end date and batches-per-day arguments produce identical output tables for
every data type: the incoming positions of the shared random state are
irrelevant because every entity generator begins by resetting the random
state from the seed. -/
theorem claim_C4 :
    ∀ (ent : Entropy) (s e : Date) (bpd : ℕ) (now : Date) (c₁ c₂ : Counters),
      (generate_all_data ent s e bpd now c₁).1
        = (generate_all_data ent s e bpd now c₂).1 := by
  intro ent s e bpd now c₁ c₂
  rfl

end NYOS
